import Mathlib

/-!
Verification development for the agentic auto-analyst pipeline.

The Python sources under src/ are shallowly embedded here:
pure string manipulation becomes Lean string functions, Python dict/list
values parsed from JSON become the inductive type JsonValue, Python
exceptions become the Except monad over PyErr, and the two external
collaborators (the Groq model behind BaseLLM and the SERP/DuckDuckGo
search providers) become explicit outcome parameters, since their
behaviour is outside the program.  json.loads is modelled by a
recursive-descent parser over characters (numbers are modelled as
integers; the repository only ever produces and consumes integer
numbers in the canned records the claims are about).  Printing and
file output are elided, but every dict subscript, attribute access,
slice and iteration that the printing helpers perform is retained in
corresponding check functions, because those operations can raise and
exception flow is part of the specified behaviour.
-/

set_option maxRecDepth 8192

deriving instance DecidableEq for Except

/-- Characters written via their code points so that brace characters never
appear literally in the file. -/
def lbrace : Char := Char.ofNat 123

def rbrace : Char := Char.ofNat 125

def quoteChar : Char := Char.ofNat 34

/-- JSON values as produced by json.loads: null, booleans, numbers
(modelled as integers), strings, arrays and objects.  Objects keep the
insertion order of their keys, as Python dicts do. -/
inductive JsonValue where
  | jnull : JsonValue
  | jbool : Bool → JsonValue
  | jnum : Int → JsonValue
  | jstr : String → JsonValue
  | jarr : List JsonValue → JsonValue
  | jobj : List (String × JsonValue) → JsonValue

mutual

/-- Boolean equality on JSON values (the nested inductive prevents the
automatic derivation of decidable equality). -/
def beqJ : JsonValue → JsonValue → Bool
  | .jnull, .jnull => true
  | .jbool a, .jbool b => a == b
  | .jnum a, .jnum b => a == b
  | .jstr a, .jstr b => a == b
  | .jarr xs, .jarr ys => beqL xs ys
  | .jobj fs, .jobj gs => beqF fs gs
  | _, _ => false

def beqL : List JsonValue → List JsonValue → Bool
  | [], [] => true
  | x :: xs, y :: ys => beqJ x y && beqL xs ys
  | _, _ => false

def beqF : List (String × JsonValue) → List (String × JsonValue) → Bool
  | [], [] => true
  | (k1, v1) :: xs, (k2, v2) :: ys => k1 == k2 && beqJ v1 v2 && beqF xs ys
  | _, _ => false

end

mutual

theorem beqJ_sound : ∀ a b, beqJ a b = true → a = b
  | .jnull, b => by cases b <;> simp [beqJ]
  | .jbool x, b => by cases b <;> simp [beqJ]
  | .jnum x, b => by cases b <;> simp [beqJ]
  | .jstr x, b => by cases b <;> simp [beqJ]
  | .jarr xs, b => by
    cases b <;> simp [beqJ]
    exact fun h => beqL_sound xs _ h
  | .jobj fs, b => by
    cases b <;> simp [beqJ]
    exact fun h => beqF_sound fs _ h

theorem beqL_sound : ∀ xs ys, beqL xs ys = true → xs = ys
  | [], ys => by cases ys <;> simp [beqL]
  | x :: xs, ys => by
    cases ys with
    | nil => simp [beqL]
    | cons y ys =>
      simp only [beqL, Bool.and_eq_true, List.cons.injEq]
      exact fun h => ⟨beqJ_sound x y h.1, beqL_sound xs ys h.2⟩

theorem beqF_sound : ∀ xs ys, beqF xs ys = true → xs = ys
  | [], ys => by cases ys <;> simp [beqF]
  | (k1, v1) :: xs, ys => by
    cases ys with
    | nil => simp [beqF]
    | cons p ys =>
      obtain ⟨k2, v2⟩ := p
      simp only [beqF, Bool.and_eq_true, List.cons.injEq, Prod.mk.injEq, beq_iff_eq]
      exact fun h => ⟨⟨h.1.1, beqJ_sound v1 v2 h.1.2⟩, beqF_sound xs ys h.2⟩

end

mutual

theorem beqJ_refl : ∀ a, beqJ a a = true
  | .jnull => by simp [beqJ]
  | .jbool x => by simp [beqJ]
  | .jnum x => by simp [beqJ]
  | .jstr x => by simp [beqJ]
  | .jarr xs => by simp [beqJ]; exact beqL_refl xs
  | .jobj fs => by simp [beqJ]; exact beqF_refl fs

theorem beqL_refl : ∀ xs, beqL xs xs = true
  | [] => by simp [beqL]
  | x :: xs => by
    simp only [beqL, Bool.and_eq_true]
    exact ⟨beqJ_refl x, beqL_refl xs⟩

theorem beqF_refl : ∀ xs, beqF xs xs = true
  | [] => by simp [beqF]
  | (k, v) :: xs => by
    simp only [beqF, Bool.and_eq_true, beq_self_eq_true, true_and]
    exact ⟨beqJ_refl v, beqF_refl xs⟩

end

instance : DecidableEq JsonValue := fun a b =>
  if h : beqJ a b = true then .isTrue (beqJ_sound a b h)
  else .isFalse (fun he => h (he ▸ beqJ_refl a))

/-- Python exceptions that the embedded code can raise. -/
inductive PyErr where
  | keyError : String → PyErr
  | typeError : PyErr
  | attributeError : PyErr
  | valueError : String → PyErr
deriving DecidableEq

/-- Lookup of a key in an ordered association list (first match). -/
def getK : List (String × JsonValue) → String → Option JsonValue
  | [], _ => none
  | (k1, v) :: rest, k => if k1 = k then some v else getK rest k

/-- Python dict assignment d[k] = v: replace the value in place if the key
exists, otherwise append the new binding at the end. -/
def setK : List (String × JsonValue) → String → JsonValue → List (String × JsonValue)
  | [], k, v => [(k, v)]
  | (k1, v1) :: rest, k, v => if k1 = k then (k, v) :: rest else (k1, v1) :: setK rest k v

/-- Total key lookup on a JSON value: some value for an object that has the
key, none otherwise. -/
def jGet : JsonValue → String → Option JsonValue
  | .jobj fields, k => getK fields k
  | _, _ => none

def jGetD (j : JsonValue) (k : String) (d : JsonValue) : JsonValue :=
  (jGet j k).getD d

def jHasKey (j : JsonValue) (k : String) : Bool :=
  (jGet j k).isSome

def isJArr : JsonValue → Bool
  | .jarr _ => true
  | _ => false

def jArrList : JsonValue → List JsonValue
  | .jarr l => l
  | _ => []

/-- Python truthiness of a JSON value. -/
def truthy : JsonValue → Bool
  | .jnull => false
  | .jbool b => b
  | .jnum n => n != 0
  | .jstr s => s.length != 0
  | .jarr l => !l.isEmpty
  | .jobj fields => !fields.isEmpty

/-- Python d[k] on a JSON value: a KeyError for an object without the key, a
TypeError when subscripting a non-dict with a string key. -/
def pySubscript (j : JsonValue) (k : String) : Except PyErr JsonValue :=
  match j with
  | .jobj fields =>
    match getK fields k with
    | some v => .ok v
    | none => .error (.keyError k)
  | _ => .error .typeError

/-- Python d.get(k, default): only dicts have a get attribute. -/
def pyGetD (j : JsonValue) (k : String) (d : JsonValue) : Except PyErr JsonValue :=
  match j with
  | .jobj fields => .ok ((getK fields k).getD d)
  | _ => .error .attributeError

def isWsChar (c : Char) : Bool :=
  c = ' ' || c = Char.ofNat 9 || c = Char.ofNat 10 || c = Char.ofNat 13

/-- Python str.lower restricted to the ASCII range the repository uses. -/
def pyLower (s : String) : String :=
  String.mk (s.data.map Char.toLower)

/-- Python str.strip with no arguments. -/
def pyStrip (s : String) : String :=
  String.mk (((s.data.dropWhile isWsChar).reverse.dropWhile isWsChar).reverse)

/-- Whether the first list is an initial segment of the second. -/
def leadsWith : List Char → List Char → Bool
  | [], _ => true
  | _ :: _, [] => false
  | a :: as, b :: bs => a = b && leadsWith as bs

def subAt : List Char → List Char → Bool
  | sub, [] => sub.isEmpty
  | sub, c :: cs => leadsWith sub (c :: cs) || subAt sub cs

/-- Python substring containment: sub in s. -/
def containsSub (s sub : String) : Bool :=
  subAt sub.data s.data

def idxOf : List Char → Char → Nat → Option Nat
  | [], _, _ => none
  | c :: cs, t, i => if c = t then some i else idxOf cs t (i + 1)

/-- Python str.find for a single character: first index or -1. -/
def pyFind (s : String) (c : Char) : Int :=
  match idxOf s.data c 0 with
  | some n => (n : Int)
  | none => -1

/-- Python str.rfind for a single character: last index or -1. -/
def pyRfind (s : String) (c : Char) : Int :=
  match idxOf s.data.reverse c 0 with
  | some n => ((s.data.length - 1 - n : Nat) : Int)
  | none => -1

/-- Python slice s[a:b] for non-negative bounds. -/
def pySliceStr (s : String) (a b : Nat) : String :=
  String.mk ((s.data.drop a).take (b - a))

/-- Python slice s[:n]. -/
def strTake (s : String) (n : Nat) : String :=
  String.mk (s.data.take n)

/-- Words of a string, splitting on runs of whitespace and dropping empty
pieces, like Python str.split with no arguments. -/
def splitWsAux : List Char → List Char → List String
  | [], [] => []
  | [], acc => [String.mk acc.reverse]
  | c :: cs, acc =>
    if isWsChar c then
      if acc.isEmpty then splitWsAux cs [] else String.mk acc.reverse :: splitWsAux cs []
    else splitWsAux cs (c :: acc)

def pySplitWs (s : String) : List String :=
  splitWsAux s.data []

def joinSpace (l : List String) : String :=
  String.intercalate " " l

mutual

/-- Python repr of a parsed JSON value, as far as the f-strings of the
repository render one (string escaping inside repr is not modelled; no
claim depends on it). -/
def pyRepr : JsonValue → String
  | .jnull => "None"
  | .jbool true => "True"
  | .jbool false => "False"
  | .jnum n => toString n
  | .jstr s => "'" ++ s ++ "'"
  | .jarr l => "[" ++ pyReprElems l ++ "]"
  | .jobj fields => "\x7b" ++ pyReprFields fields ++ "\x7d"

def pyReprElems : List JsonValue → String
  | [] => ""
  | [x] => pyRepr x
  | x :: y :: rest => pyRepr x ++ ", " ++ pyReprElems (y :: rest)

def pyReprFields : List (String × JsonValue) → String
  | [] => ""
  | [(k, v)] => "'" ++ k ++ "': " ++ pyRepr v
  | (k, v) :: p :: rest => "'" ++ k ++ "': " ++ pyRepr v ++ ", " ++ pyReprFields (p :: rest)

end

/-- Python str() of a parsed JSON value, as rendered inside f-strings. -/
def pyStr : JsonValue → String
  | .jstr s => s
  | v => pyRepr v

/-- Python for x in v: lists yield elements, strings yield one-character
strings, dicts yield their keys; everything else raises TypeError. -/
def pyIterList : JsonValue → Except PyErr (List JsonValue)
  | .jarr l => .ok l
  | .jstr s => .ok (s.data.map fun c => .jstr (String.mk [c]))
  | .jobj fields => .ok (fields.map fun p => .jstr p.1)
  | _ => .error .typeError

/-- Python v[:n]: lists and strings slice, everything else raises
TypeError. -/
def pySliceVal (j : JsonValue) (n : Nat) : Except PyErr JsonValue :=
  match j with
  | .jarr l => .ok (.jarr (l.take n))
  | .jstr s => .ok (.jstr (strTake s n))
  | _ => .error .typeError

/-- Python len(v). -/
def pyLen : JsonValue → Except PyErr Nat
  | .jarr l => .ok l.length
  | .jstr s => .ok s.data.length
  | .jobj fields => .ok fields.length
  | _ => .error .typeError

/-- Python k in v: key membership for dicts, element membership for lists,
substring test for strings, TypeError otherwise. -/
def pyContains (j : JsonValue) (k : String) : Except PyErr Bool :=
  match j with
  | .jobj fields => .ok (getK fields k).isSome
  | .jarr l => .ok (l.contains (.jstr k))
  | .jstr s => .ok (containsSub s k)
  | _ => .error .typeError

/-- Python v.lower(): only strings have the attribute. -/
def pyLowerE : JsonValue → Except PyErr String
  | .jstr s => .ok (pyLower s)
  | _ => .error .attributeError

/-- Python v.upper(): only strings have the attribute (result unused by the
callers modelled here, only the raising behaviour matters). -/
def pyUpperE : JsonValue → Except PyErr Unit
  | .jstr _ => .ok ()
  | _ => .error .attributeError

/-- Python ", ".join(v): v must be an iterable of strings. -/
def pyJoinCheck (j : JsonValue) : Except PyErr Unit :=
  match j with
  | .jarr l => if l.all (fun x => match x with | .jstr _ => true | _ => false) then .ok () else .error .typeError
  | .jstr _ => .ok ()
  | .jobj _ => .ok ()
  | _ => .error .typeError

/-- Skip JSON whitespace. -/
def skipWs : List Char → List Char
  | [] => []
  | c :: rest => if isWsChar c then skipWs rest else c :: rest

/-- Parse the remainder of a JSON string literal, the opening quote already
consumed.  Basic escapes are handled; unicode escapes are not (no input
of the repository contains one). -/
def parseStringBody : List Char → List Char → Option (String × List Char)
  | acc, c :: rest =>
    if c = quoteChar then some (String.mk acc.reverse, rest)
    else if c = '\\' then
      match rest with
      | e :: rest2 =>
        if e = quoteChar then parseStringBody (quoteChar :: acc) rest2
        else if e = '\\' then parseStringBody ('\\' :: acc) rest2
        else if e = '/' then parseStringBody ('/' :: acc) rest2
        else if e = 'n' then parseStringBody (Char.ofNat 10 :: acc) rest2
        else if e = 't' then parseStringBody (Char.ofNat 9 :: acc) rest2
        else if e = 'r' then parseStringBody (Char.ofNat 13 :: acc) rest2
        else if e = 'b' then parseStringBody (Char.ofNat 8 :: acc) rest2
        else if e = 'f' then parseStringBody (Char.ofNat 12 :: acc) rest2
        else none
      | [] => none
    else parseStringBody (c :: acc) rest
  | _, [] => none

def digitsToNat : List Char → Nat → Nat
  | [], acc => acc
  | c :: cs, acc => digitsToNat cs (acc * 10 + (c.toNat - 48))

/-- Parse a JSON integer (optional minus sign followed by digits). -/
def parseNumLit (cs : List Char) : Option (JsonValue × List Char) :=
  match cs with
  | '-' :: rest =>
    let digits := rest.takeWhile Char.isDigit
    if digits.isEmpty then none
    else some (.jnum (-(digitsToNat digits 0 : Int)), rest.drop digits.length)
  | _ =>
    let digits := cs.takeWhile Char.isDigit
    if digits.isEmpty then none
    else some (.jnum (digitsToNat digits 0 : Int), cs.drop digits.length)

mutual

/-- Fueled recursive-descent parser for a JSON value. -/
def parseVal : Nat → List Char → Option (JsonValue × List Char)
  | 0, _ => none
  | fuel + 1, cs =>
    match skipWs cs with
    | [] => none
    | c :: rest =>
      if c = quoteChar then
        match parseStringBody [] rest with
        | some (s, rest2) => some (.jstr s, rest2)
        | none => none
      else if c = lbrace then
        match skipWs rest with
        | c2 :: rest2 =>
          if c2 = rbrace then some (.jobj [], rest2)
          else parseMembers fuel (c2 :: rest2) []
        | [] => none
      else if c = '[' then
        match skipWs rest with
        | c2 :: rest2 =>
          if c2 = ']' then some (.jarr [], rest2)
          else parseElems fuel (c2 :: rest2) []
        | [] => none
      else if c = 'n' then
        if leadsWith ['u', 'l', 'l'] rest then some (.jnull, rest.drop 3) else none
      else if c = 't' then
        if leadsWith ['r', 'u', 'e'] rest then some (.jbool true, rest.drop 3) else none
      else if c = 'f' then
        if leadsWith ['a', 'l', 's', 'e'] rest then some (.jbool false, rest.drop 4) else none
      else parseNumLit (c :: rest)

/-- Parse the members of a JSON object, positioned at the start of a key. -/
def parseMembers : Nat → List Char → List (String × JsonValue) → Option (JsonValue × List Char)
  | 0, _, _ => none
  | fuel + 1, cs, acc =>
    match skipWs cs with
    | c :: rest =>
      if c = quoteChar then
        match parseStringBody [] rest with
        | some (k, rest2) =>
          match skipWs rest2 with
          | ':' :: rest3 =>
            match parseVal fuel rest3 with
            | some (v, rest4) =>
              let acc2 := setK acc k v
              match skipWs rest4 with
              | ',' :: rest5 => parseMembers fuel rest5 acc2
              | d :: rest5 =>
                if d = rbrace then some (.jobj acc2, rest5) else none
              | [] => none
            | none => none
          | _ => none
        | none => none
      else none
    | [] => none

/-- Parse the elements of a JSON array, positioned at the start of a value. -/
def parseElems : Nat → List Char → List JsonValue → Option (JsonValue × List Char)
  | 0, _, _ => none
  | fuel + 1, cs, acc =>
    match parseVal fuel cs with
    | some (v, rest) =>
      match skipWs rest with
      | ',' :: rest2 => parseElems fuel rest2 (acc ++ [v])
      | ']' :: rest2 => some (.jarr (acc ++ [v]), rest2)
      | _ => none
    | none => none

end

/-- json.loads: parse the whole string; trailing non-whitespace is an
error, exactly as in Python. -/
def json_loads (s : String) : Option JsonValue :=
  match parseVal (2 * s.data.length + 8) s.data with
  | some (v, rest) => if (skipWs rest).isEmpty then some v else none
  | none => none

/-- json.loads as a raising operation (json.JSONDecodeError is a ValueError). -/
def jsonLoadsE (s : String) : Except PyErr JsonValue :=
  match json_loads s with
  | some v => .ok v
  | none => .error (.valueError "JSONDecodeError")

example : json_loads "\x7b\"a\": 1, \"b\": [true, null, \"x\"]\x7d" =
    some (.jobj [("a", .jnum 1), ("b", .jarr [.jbool true, .jnull, .jstr "x"])]) := by decide

example : json_loads "\x7b\"a\":1\x7dmore noise\x7b\"b\":2\x7d" = none := by decide

example : json_loads "  \x7b \x7d " = some (.jobj []) := by decide

example : json_loads "[-3, 0]" = some (.jarr [.jnum (-3), .jnum 0]) := by decide

/-- One web search hit as assembled by ResearchAgent.search_web and
ResearchAgent._fallback_search: both build dicts with exactly the keys
title, snippet and url, all strings. -/
structure SearchHit where
  title : String
  snippet : String
  url : String
deriving DecidableEq

/-- The JSON value of a list of search hits, as stored under raw_results. -/
def hitsToJson (hits : List SearchHit) : JsonValue :=
  .jarr (hits.map fun h => .jobj [("title", .jstr h.title), ("snippet", .jstr h.snippet), ("url", .jstr h.url)])

namespace BaseLLM

/-- BaseLLM.generate: a model invocation outcome is either the returned
text or an exception e; the exception is swallowed and turned into the
string "Error generating response: <e>". -/
def generate (invoke : Except String String) : String :=
  match invoke with
  | .ok s => s
  | .error e => "Error generating response: " ++ e

end BaseLLM

namespace TaskPlanner

/-- The exact json.dumps output of the canned structure that
TaskPlanner._extract_json returns when no brace span is found. -/
def extractFallbackString : String :=
  "\x7b\"problem\": \"Parsing failed\", \"subtasks\": [\x7b\"id\": 1, \"task\": \"Handle parsing error\", \"agent\": \"system\", \"tools\": [], \"expected_output\": \"Error message\"\x7d], \"rationale\": \"JSON parsing failed from LLM response\"\x7d"

/-- The record that extractFallbackString deserializes to. -/
def extractFallbackPlan : JsonValue :=
  .jobj [("problem", .jstr "Parsing failed"),
    ("subtasks", .jarr [.jobj [("id", .jnum 1), ("task", .jstr "Handle parsing error"),
      ("agent", .jstr "system"), ("tools", .jarr []), ("expected_output", .jstr "Error message")]]),
    ("rationale", .jstr "JSON parsing failed from LLM response")]

/-- TaskPlanner._extract_json: slice from the first opening brace to the
last closing brace; if no such span exists, return the canned JSON text. -/
def _extract_json (text : String) : String :=
  let start := pyFind text lbrace
  let stop := pyRfind text rbrace + 1
  if 0 ≤ start ∧ start < stop then pySliceStr text start.toNat stop.toNat
  else extractFallbackString

/-- TaskPlanner._validate_plan: presence of the three required keys
(checked with the in operator, in the fixed order of the required_keys
list, raising a ValueError that names the first missing key) followed by
an isinstance list check on the subtasks value. -/
def _validate_plan (plan : JsonValue) : Except PyErr Unit := do
  let h1 ← pyContains plan "problem"
  if !h1 then Except.error (.valueError "Missing required key in plan: problem")
  else do
    let h2 ← pyContains plan "subtasks"
    if !h2 then Except.error (.valueError "Missing required key in plan: subtasks")
    else do
      let h3 ← pyContains plan "rationale"
      if !h3 then Except.error (.valueError "Missing required key in plan: rationale")
      else do
        let sts ← pySubscript plan "subtasks"
        if !isJArr sts then Except.error (.valueError "Subtasks must be a list")
        else pure ()

/-- TaskPlanner._create_default_plan. -/
def _create_default_plan (problem : String) : JsonValue :=
  .jobj [("problem", .jstr problem),
    ("subtasks", .jarr [
      .jobj [("id", .jnum 1), ("task", .jstr "Research and gather information about the problem"),
        ("agent", .jstr "researcher"), ("tools", .jarr [.jstr "web_search"]),
        ("expected_output", .jstr "Collection of relevant information and sources")],
      .jobj [("id", .jnum 2), ("task", .jstr "Analyze the gathered information"),
        ("agent", .jstr "analyst"), ("tools", .jarr []),
        ("expected_output", .jstr "Analysis of pros, cons, and insights")],
      .jobj [("id", .jnum 3), ("task", .jstr "Validate the analysis and provide recommendations"),
        ("agent", .jstr "critic"), ("tools", .jarr []),
        ("expected_output", .jstr "Validated insights and actionable recommendations")]]),
    ("rationale", .jstr "Default three-step research pipeline")]

/-- The body of the try block of TaskPlanner.create_plan: extract, parse
and validate, any raised exception escaping to the handler. -/
def tryPlan (response : String) : Except PyErr JsonValue := do
  let json_str := _extract_json response
  let plan ← jsonLoadsE json_str
  let _ ← _validate_plan plan
  pure plan

/-- TaskPlanner.create_plan: prompt composition feeds the external model,
whose outcome is the invoke parameter; every exception in the try block is
caught and answered with the default plan. -/
def create_plan (problem : String) (invoke : Except String String) : JsonValue :=
  let response := BaseLLM.generate invoke
  match tryPlan response with
  | .ok plan => plan
  | .error _ => _create_default_plan problem

/-- The dict subscripts and joins performed by TaskPlanner.display_plan
(printing elided, raising behaviour retained). -/
def display_plan_check (plan : JsonValue) : Except PyErr Unit := do
  let _ ← pySubscript plan "problem"
  let _ ← pySubscript plan "rationale"
  let sts ← pySubscript plan "subtasks"
  let tasks ← pyIterList sts
  for task in tasks do
    let _ ← pySubscript task "id"
    let _ ← pySubscript task "task"
    let _ ← pySubscript task "agent"
    let tools ← pySubscript task "tools"
    if truthy tools then
      let _ ← pyJoinCheck tools
      pure ()
    let _ ← pySubscript task "expected_output"
  pure ()

end TaskPlanner

namespace ResearchAgent

/-- The exact json.dumps output of the canned structure that
ResearchAgent._extract_json returns when no brace span is found. -/
def extractFallbackString : String :=
  "\x7b\"topic\": \"JSON extraction failed\", \"summary\": \"Could not parse LLM response\", \"key_findings\": [], \"statistics\": [], \"sources\": [], \"gaps\": [\"Could not parse analysis\"], \"next_steps\": [\"Retry research\"]\x7d"

/-- The record that extractFallbackString deserializes to. -/
def extractFallbackResearch : JsonValue :=
  .jobj [("topic", .jstr "JSON extraction failed"), ("summary", .jstr "Could not parse LLM response"),
    ("key_findings", .jarr []), ("statistics", .jarr []), ("sources", .jarr []),
    ("gaps", .jarr [.jstr "Could not parse analysis"]),
    ("next_steps", .jarr [.jstr "Retry research"])]

/-- ResearchAgent._extract_json: same first-to-last brace slice, with the
research-stage canned JSON text when no span exists. -/
def _extract_json (text : String) : String :=
  let start := pyFind text lbrace
  let stop := pyRfind text rbrace + 1
  if 0 ≤ start ∧ start < stop then pySliceStr text start.toNat stop.toNat
  else extractFallbackString

/-- ResearchAgent._optimize_query: append the recency token unless the
lowercased stripped query already contains the literal substring 2024 or
2023. -/
def _optimize_query (query : String) : String :=
  let query_lower := pyStrip (pyLower query)
  if !containsSub query_lower "2024" && !containsSub query_lower "2023" then query ++ " 2024"
  else query

/-- The query string handed to the primary SERP search (search_web lines
84-88): optimize first, then truncate to the first 12 words when the
optimized query has more than 15 words. -/
def serpQueryString (query : String) : String :=
  let optimized := _optimize_query query
  if (pySplitWs optimized).length > 15 then joinSpace ((pySplitWs optimized).take 12)
  else optimized

/-- ResearchAgent._fallback_search: the DuckDuckGo outcome, or the empty
list when that collaborator fails too.  The fallback searches with the
raw query, so its outcome is keyed by the unoptimized query value. -/
def _fallback_search (query : JsonValue) (fb : JsonValue → Except String (List SearchHit)) : List SearchHit :=
  match fb query with
  | .ok hits => hits
  | .error _ => []

/-- ResearchAgent.search_web with max_results at its default of 5 (the
only value the pipeline uses): without a SERP key, or when the primary
provider raises, fall back; a non-string query makes _optimize_query
raise inside the try block, which is likewise caught by the fallback
path.  The primary outcome is keyed by the optimized-and-truncated
query, the organic-results field mapping being folded into SearchHit. -/
def search_web (query : JsonValue) (serpKey : Bool)
    (primary : String → Except String (List SearchHit))
    (fb : JsonValue → Except String (List SearchHit)) : List SearchHit :=
  if !serpKey then _fallback_search query fb
  else
    match query with
    | .jstr q =>
      match primary (serpQueryString q) with
      | .ok hits => hits.take 5
      | .error _ => _fallback_search query fb
    | _ => _fallback_search query fb

/-- ResearchAgent._create_empty_research. -/
def _create_empty_research (topic : JsonValue) : JsonValue :=
  .jobj [("topic", topic), ("summary", .jstr "No search results found"),
    ("key_findings", .jarr []), ("statistics", .jarr []), ("sources", .jarr []),
    ("gaps", .jarr [.jstr "No information available from search"]),
    ("next_steps", .jarr [.jstr "Try different search terms", .jstr "Check internet connection"]),
    ("raw_results", .jarr [])]

/-- ResearchAgent._create_basic_research. -/
def _create_basic_research (topic : JsonValue) (search_results : List SearchHit) : JsonValue :=
  .jobj [("topic", topic),
    ("summary", .jstr ("Found " ++ toString search_results.length ++ " results but analysis failed")),
    ("key_findings", .jarr [.jobj [("category", .jstr "Raw Search Results"),
      ("points", .jarr ((search_results.take 3).map fun r => .jstr (strTake r.title 100 ++ "...")))]]),
    ("statistics", .jarr [.jstr ("Total results: " ++ toString search_results.length)]),
    ("sources", .jarr ((search_results.take 3).map fun r =>
      .jobj [("title", .jstr r.title), ("url", .jstr r.url), ("credibility", .jstr "unknown")])),
    ("gaps", .jarr [.jstr "LLM analysis unavailable"]),
    ("next_steps", .jarr [.jstr "Manual analysis required"]),
    ("raw_results", hitsToJson search_results)]

/-- The body of the try block of ResearchAgent.research_topic: extract,
parse, then the item assignment research["raw_results"] = search_results,
which raises TypeError on a non-dict (unreachable, since a parsed span
always starts with an opening brace, but kept for fidelity). -/
def tryAnalyze (search_results : List SearchHit) (response : String) : Except PyErr JsonValue := do
  let r ← jsonLoadsE (_extract_json response)
  match r with
  | .jobj fields => pure (.jobj (setK fields "raw_results" (hitsToJson search_results)))
  | _ => Except.error .typeError

/-- ResearchAgent.research_topic with the default search query (the topic
itself, as the pipeline always calls it): search, return the empty-research
record when no results, otherwise analyze via the model, falling back to
the basic-research record when anything in the try block raises. -/
def research_topic (topic : JsonValue) (serpKey : Bool)
    (primary : String → Except String (List SearchHit))
    (fb : JsonValue → Except String (List SearchHit))
    (invoke : Except String String) : JsonValue :=
  let search_results := search_web topic serpKey primary fb
  if search_results.isEmpty then _create_empty_research topic
  else
    let response := BaseLLM.generate invoke
    match tryAnalyze search_results response with
    | .ok r => r
    | .error _ => _create_basic_research topic search_results

/-- The dict subscripts, slices and iterations performed by
ResearchAgent.display_research (printing elided, raising behaviour
retained). -/
def display_research_check (research : JsonValue) : Except PyErr Unit := do
  let _ ← pySubscript research "topic"
  let _ ← pySubscript research "summary"
  let kf ← pySubscript research "key_findings"
  if truthy kf then
    for finding in (← pyIterList kf) do
      let _ ← pySubscript finding "category"
      let pts ← pySubscript finding "points"
      let _ ← pyIterList pts
      pure ()
  let stats ← pySubscript research "statistics"
  if truthy stats then
    let _ ← pyIterList stats
    pure ()
  let srcs ← pySubscript research "sources"
  if truthy srcs then
    let _ ← pyLen srcs
    let s3 ← pySliceVal srcs 3
    for source in (← pyIterList s3) do
      let t ← pySubscript source "title"
      let _ ← pySliceVal t 80
      let _ ← pySubscript source "credibility"
      pure ()
  let gaps ← pySubscript research "gaps"
  if truthy gaps then
    let _ ← pyIterList gaps
    pure ()
  let ns ← pySubscript research "next_steps"
  if truthy ns then
    let _ ← pyIterList ns
    pure ()
  let rr ← pyGetD research "raw_results" (.jarr [])
  let _ ← pyLen rr
  pure ()

end ResearchAgent

namespace CriticAgent

/-- The exact json.dumps output of the canned structure that
CriticAgent._extract_json returns when no brace span is found. -/
def extractFallbackString : String :=
  "\x7b\"topic\": \"JSON extraction failed\", \"validation\": \x7b\"completeness_score\": 5, \"accuracy_score\": 5, \"source_credibility_score\": 5, \"biases_identified\": [\"Could not parse critique\"], \"assumptions\": [\"Parsing failed\"]\x7d, \"critique\": \x7b\"strengths\": [\"Critique system operational\"], \"weaknesses\": [\"Could not generate proper critique\"], \"logical_issues\": [\"Parsing error\"], \"missing_perspectives\": [\"Full critique unavailable\"]\x7d, \"improvements\": [\x7b\"area\": \"Critique system\", \"suggestion\": \"Retry critique generation\", \"priority\": \"high\"\x7d], \"overall_quality\": 5, \"confidence_level\": \"low\", \"recommendation\": \"Manual review required\"\x7d"

/-- The record that extractFallbackString deserializes to. -/
def extractFallbackCritique : JsonValue :=
  .jobj [("topic", .jstr "JSON extraction failed"),
    ("validation", .jobj [("completeness_score", .jnum 5), ("accuracy_score", .jnum 5),
      ("source_credibility_score", .jnum 5),
      ("biases_identified", .jarr [.jstr "Could not parse critique"]),
      ("assumptions", .jarr [.jstr "Parsing failed"])]),
    ("critique", .jobj [("strengths", .jarr [.jstr "Critique system operational"]),
      ("weaknesses", .jarr [.jstr "Could not generate proper critique"]),
      ("logical_issues", .jarr [.jstr "Parsing error"]),
      ("missing_perspectives", .jarr [.jstr "Full critique unavailable"])]),
    ("improvements", .jarr [.jobj [("area", .jstr "Critique system"),
      ("suggestion", .jstr "Retry critique generation"), ("priority", .jstr "high")]]),
    ("overall_quality", .jnum 5), ("confidence_level", .jstr "low"),
    ("recommendation", .jstr "Manual review required")]

/-- CriticAgent._extract_json: same first-to-last brace slice, with the
critique-stage canned JSON text when no span exists. -/
def _extract_json (text : String) : String :=
  let start := pyFind text lbrace
  let stop := pyRfind text rbrace + 1
  if 0 ≤ start ∧ start < stop then pySliceStr text start.toNat stop.toNat
  else extractFallbackString

/-- CriticAgent._prepare_findings_summary.  The assembled summary text
only feeds the prompt of the external model, so its content is elided;
every dict access, slice and iteration of the source is retained because
this function runs outside the try block of critique_research and its
exceptions escape to the caller. -/
def _prepare_findings_summary (research : JsonValue) : Except PyErr Unit := do
  let _ ← pyGetD research "summary" (.jstr "No summary")
  let kf ← pyGetD research "key_findings" .jnull
  if truthy kf then
    for finding in (← pyIterList kf) do
      let _ ← pySubscript finding "category"
      let pts ← pyGetD finding "points" (.jarr [])
      let p3 ← pySliceVal pts 3
      let _ ← pyIterList p3
      pure ()
  let stats ← pyGetD research "statistics" .jnull
  if truthy stats then
    let sv ← pySubscript research "statistics"
    let s5 ← pySliceVal sv 5
    let _ ← pyIterList s5
    pure ()
  let srcs ← pyGetD research "sources" .jnull
  if truthy srcs then
    let sv ← pySubscript research "sources"
    let s3 ← pySliceVal sv 3
    for source in (← pyIterList s3) do
      let _ ← pyGetD source "title" (.jstr "No title")
      let _ ← pyGetD source "credibility" (.jstr "unknown")
      pure ()
  let gaps ← pyGetD research "gaps" .jnull
  if truthy gaps then
    let gv ← pySubscript research "gaps"
    let g3 ← pySliceVal gv 3
    let _ ← pyIterList g3
    pure ()
  pure ()

/-- CriticAgent._create_default_critique.  The source reads the topic and
summary with research.get; by the time this runs, critique_research has
already executed _prepare_findings_summary successfully, so research is a
dict and the total lookup is faithful. -/
def _create_default_critique (research : JsonValue) : JsonValue :=
  .jobj [("topic", jGetD research "topic" (.jstr "Unknown")),
    ("research_topic", jGetD research "topic" (.jstr "")),
    ("original_research_summary", jGetD research "summary" (.jstr "")),
    ("validation", .jobj [("completeness_score", .jnum 5), ("accuracy_score", .jnum 5),
      ("source_credibility_score", .jnum 5),
      ("biases_identified", .jarr [.jstr "Unknown due to critique failure"]),
      ("assumptions", .jarr [.jstr "Default critique generated"])]),
    ("critique", .jobj [("strengths", .jarr [.jstr "Research was conducted", .jstr "Findings were documented"]),
      ("weaknesses", .jarr [.jstr "Critique system failed", .jstr "Limited validation"]),
      ("logical_issues", .jarr [.jstr "Unable to assess"]),
      ("missing_perspectives", .jarr [.jstr "Full critique unavailable"])]),
    ("improvements", .jarr [.jobj [("area", .jstr "Critique System"),
      ("suggestion", .jstr "Fix critique generation or use manual review"), ("priority", .jstr "high")]]),
    ("overall_quality", .jnum 5), ("confidence_level", .jstr "low"),
    ("recommendation", .jstr "Use with caution and manual verification")]

/-- The body of the try block of CriticAgent.critique_research: extract,
parse, then the two metadata item assignments (a TypeError on a non-dict,
unreachable since a parsed span starts with an opening brace). -/
def tryCritique (research : JsonValue) (response : String) : Except PyErr JsonValue := do
  let c ← jsonLoadsE (_extract_json response)
  match c with
  | .jobj fields =>
    pure (.jobj (setK (setK fields "research_topic" (jGetD research "topic" (.jstr "")))
      "original_research_summary" (jGetD research "summary" (.jstr ""))))
  | _ => Except.error .typeError

/-- CriticAgent.critique_research: the findings summary and the prompt
composition run before the try block, so their exceptions propagate;
everything raised inside the try block is caught and answered with the
default critique. -/
def critique_research (research : JsonValue) (invoke : Except String String) : Except PyErr JsonValue := do
  let _ ← _prepare_findings_summary research
  let _ ← pyGetD research "topic" (.jstr "Unknown topic")
  let response := BaseLLM.generate invoke
  match tryCritique research response with
  | .ok c => pure c
  | .error _ => pure (_create_default_critique research)

/-- The dict accesses, slices and iterations performed by
CriticAgent.display_critique (printing elided, raising behaviour
retained). -/
def display_critique_check (critique : JsonValue) : Except PyErr Unit := do
  let _ ← pyGetD critique "topic" (.jstr "Unknown")
  let validation ← pyGetD critique "validation" (.jobj [])
  if truthy validation then
    let _ ← pyGetD validation "completeness_score" (.jstr "N/A")
    let _ ← pyGetD validation "accuracy_score" (.jstr "N/A")
    let _ ← pyGetD validation "source_credibility_score" (.jstr "N/A")
    let b ← pyGetD validation "biases_identified" .jnull
    if truthy b then
      let b3 ← pySliceVal b 3
      let _ ← pyIterList b3
      pure ()
    let a ← pyGetD validation "assumptions" .jnull
    if truthy a then
      let a3 ← pySliceVal a 3
      let _ ← pyIterList a3
      pure ()
  let cd ← pyGetD critique "critique" (.jobj [])
  if truthy cd then
    let s ← pyGetD cd "strengths" .jnull
    if truthy s then
      let s3 ← pySliceVal s 3
      let _ ← pyIterList s3
      pure ()
    let w ← pyGetD cd "weaknesses" .jnull
    if truthy w then
      let w3 ← pySliceVal w 3
      let _ ← pyIterList w3
      pure ()
    let li ← pyGetD cd "logical_issues" .jnull
    if truthy li then
      let l3 ← pySliceVal li 3
      let _ ← pyIterList l3
      pure ()
    let mp ← pyGetD cd "missing_perspectives" .jnull
    if truthy mp then
      let m3 ← pySliceVal mp 3
      let _ ← pyIterList m3
      pure ()
  let improvements ← pyGetD critique "improvements" (.jarr [])
  if truthy improvements then
    let i3 ← pySliceVal improvements 3
    for imp in (← pyIterList i3) do
      let pr ← pyGetD imp "priority" (.jstr "medium")
      let _ ← pyUpperE pr
      let _ ← pyGetD imp "area" .jnull
      let _ ← pyGetD imp "suggestion" (.jstr "No suggestion")
      pure ()
  let _ ← pyGetD critique "overall_quality" (.jstr "N/A")
  let cl ← pyGetD critique "confidence_level" (.jstr "unknown")
  let _ ← pyUpperE cl
  let _ ← pyGetD critique "recommendation" (.jstr "No recommendation")
  pure ()

end CriticAgent

/-- One entry of the all_research list of AutoAnalyst.analyze: the dict
with keys task_id, task_description and research. -/
structure ResearchItem where
  task_id : JsonValue
  task_description : JsonValue
  research : JsonValue
deriving DecidableEq

/-- One entry of the all_critiques list of AutoAnalyst.analyze: the dict
with keys task_id and critique. -/
structure CritiqueItem where
  task_id : JsonValue
  critique : JsonValue
deriving DecidableEq

namespace AutoAnalyst

/-- The agent-label filter of the research loop of AutoAnalyst.analyze:
task["agent"] in ["researcher", "analyst", "data_scientist"] (Python
equality of an arbitrary value with a string). -/
def isEligibleAgent (a : JsonValue) : Bool :=
  a == .jstr "researcher" || a == .jstr "analyst" || a == .jstr "data_scientist"

/-- The subtasks that the research loop of analyze actually researches,
stated with total lookups (used only in theorem statements). -/
def eligibleSubtasks (subtasks : List JsonValue) : List JsonValue :=
  subtasks.filter fun t => isEligibleAgent ((jGet t "agent").getD .jnull)

/-- The id values of a list of subtasks, with total lookups. -/
def subtaskIds (subtasks : List JsonValue) : List JsonValue :=
  subtasks.map fun t => (jGet t "id").getD .jnull

/-- The research loop of AutoAnalyst.analyze (lines 47-57): one
research_topic call per subtask whose agent label passes the filter, each
result displayed and appended with its originating task id.  The model
and search collaborators are keyed by the values handed to them. -/
def researchLoop (serpKey : Bool) (primary : String → Except String (List SearchHit))
    (fb : JsonValue → Except String (List SearchHit))
    (rinvoke : JsonValue → Except String String) :
    List JsonValue → Except PyErr (List ResearchItem)
  | [] => .ok []
  | task :: rest => do
    let ag ← pySubscript task "agent"
    if isEligibleAgent ag then do
      let tk ← pySubscript task "task"
      let research := ResearchAgent.research_topic tk serpKey primary fb (rinvoke tk)
      let _ ← ResearchAgent.display_research_check research
      let tid ← pySubscript task "id"
      let tail ← researchLoop serpKey primary fb rinvoke rest
      pure (⟨tid, tk, research⟩ :: tail)
    else researchLoop serpKey primary fb rinvoke rest

/-- The critique loop of AutoAnalyst.analyze (lines 63-71): one
critique_research call per research item, each displayed and appended
with the same task id. -/
def critiqueLoop (cinvoke : JsonValue → Except String String) :
    List ResearchItem → Except PyErr (List CritiqueItem)
  | [] => .ok []
  | item :: rest => do
    let critique ← CriticAgent.critique_research item.research (cinvoke item.research)
    let _ ← CriticAgent.display_critique_check critique
    let tail ← critiqueLoop cinvoke rest
    pure (⟨item.task_id, critique⟩ :: tail)

/-- The default recommendation list of AutoAnalyst._generate_recommendations. -/
def defaultRecommendations : List String :=
  ["Conduct more targeted market research",
   "Validate findings with industry experts",
   "Analyze competitor offerings in detail",
   "Assess technical feasibility and costs",
   "Develop a minimum viable product (MVP) strategy"]

/-- The plan-scanning half of _generate_recommendations. -/
def recsFromSubtasks : List JsonValue → Except PyErr (List String)
  | [] => .ok []
  | task :: rest => do
    let tk ← pySubscript task "task"
    let low ← pyLowerE tk
    let tail ← recsFromSubtasks rest
    if containsSub low "recommend" || containsSub low "suggest" then
      pure (("Consider: " ++ pyStr tk) :: tail)
    else pure tail

/-- The critique-scanning half of _generate_recommendations. -/
def recsFromCritiques : List CritiqueItem → Except PyErr (List String)
  | [] => .ok []
  | c :: rest => do
    let has ← pyContains c.critique "recommendation"
    if has then do
      let r ← pySubscript c.critique "recommendation"
      let tail ← recsFromCritiques rest
      pure (("Task " ++ pyStr c.task_id ++ ": " ++ pyStr r) :: tail)
    else recsFromCritiques rest

/-- AutoAnalyst._generate_recommendations (research_items is accepted and
ignored, as in the source). -/
def _generate_recommendations (plan : JsonValue) (_research_items : List ResearchItem)
    (critiques : List CritiqueItem) : Except PyErr (List String) := do
  let sts ← pySubscript plan "subtasks"
  let tasks ← pyIterList sts
  let a ← recsFromSubtasks tasks
  let b ← recsFromCritiques critiques
  let recommendations := a ++ b
  let recommendations := if recommendations.isEmpty then defaultRecommendations else recommendations
  pure (recommendations.take 5)

/-- The default next-step list of AutoAnalyst._generate_next_steps. -/
def defaultNextSteps : List String :=
  ["Expand search to academic databases",
   "Conduct expert interviews",
   "Analyze regional market data",
   "Validate with user surveys"]

/-- The inner loop of _generate_next_steps over the first two improvement
entries of one critique. -/
def stepsFromImps : List JsonValue → Except PyErr (List String)
  | [] => .ok []
  | imp :: rest => do
    let pr ← pyGetD imp "priority" .jnull
    if pr == JsonValue.jstr "high" then do
      let sug ← pyGetD imp "suggestion" (.jstr "")
      let tail ← stepsFromImps rest
      pure (("High priority: " ++ pyStr sug) :: tail)
    else stepsFromImps rest

/-- The outer loop of _generate_next_steps: slice improvements to its
first two entries, then keep the high-priority ones among those. -/
def stepsFromCritiques : List CritiqueItem → Except PyErr (List String)
  | [] => .ok []
  | c :: rest => do
    let improvements ← pyGetD c.critique "improvements" (.jarr [])
    let i2 ← pySliceVal improvements 2
    let l ← pyIterList i2
    let here ← stepsFromImps l
    let tail ← stepsFromCritiques rest
    pure (here ++ tail)

/-- AutoAnalyst._generate_next_steps. -/
def _generate_next_steps (critiques : List CritiqueItem) : Except PyErr (List String) := do
  let ns ← stepsFromCritiques critiques
  let ns := if ns.isEmpty then defaultNextSteps else ns
  pure (ns.take 5)

/-- The loop of AutoAnalyst._extract_key_insights. -/
def insightLines : List ResearchItem → Except PyErr (List String)
  | [] => .ok []
  | item :: rest => do
    let has ← pyContains item.research "summary"
    if has then do
      let s ← pySubscript item.research "summary"
      let s150 ← pySliceVal s 150
      let tail ← insightLines rest
      pure (("Task " ++ pyStr item.task_id ++ ": " ++ pyStr s150 ++ "...") :: tail)
    else insightLines rest

/-- AutoAnalyst._extract_key_insights. -/
def _extract_key_insights (research_items : List ResearchItem) : Except PyErr (List String) := do
  let l ← insightLines research_items
  pure (l.take 5)

/-- The key_findings/sources accumulation of _generate_final_report:
list.extend iterates its argument, raising TypeError on a non-iterable. -/
def combineLists : List ResearchItem → Except PyErr (List JsonValue × List JsonValue)
  | [] => .ok ([], [])
  | item :: rest => do
    let hasKF ← pyContains item.research "key_findings"
    let kfs ← if hasKF then do
        let v ← pySubscript item.research "key_findings"
        pyIterList v
      else pure []
    let hasS ← pyContains item.research "sources"
    let ss ← if hasS then do
        let v ← pySubscript item.research "sources"
        pyIterList v
      else pure []
    let (krest, srest) ← combineLists rest
    pure (kfs ++ krest, ss ++ srest)

/-- The detailed_findings comprehension of _generate_final_report. -/
def detailedFindings : List ResearchItem → Except PyErr (List JsonValue)
  | [] => .ok []
  | item :: rest => do
    let rsum ← pyGetD item.research "summary" (.jstr "")
    let kps ← pyGetD item.research "key_findings" (.jarr [])
    let kp2 ← pySliceVal kps 2
    let tail ← detailedFindings rest
    pure (.jobj [("task_id", item.task_id), ("task", item.task_description),
      ("research_summary", rsum), ("key_points", kp2)] :: tail)

/-- AutoAnalyst._generate_final_report: build the combined research
record, critique it once more for the overall assessment, and assemble
the report dict.  The run timestamp is a parameter. -/
def _generate_final_report (problem : String) (plan : JsonValue)
    (research_items : List ResearchItem) (critiques : List CritiqueItem)
    (overallInvoke : Except String String) (timestamp : String) : Except PyErr JsonValue := do
  let (kf, srcs) ← combineLists research_items
  let combined_research := JsonValue.jobj [
    ("topic", .jstr ("Comprehensive analysis: " ++ problem)),
    ("summary", .jstr ("Analysis combining " ++ toString research_items.length ++ " research tasks")),
    ("key_findings", .jarr kf), ("sources", .jarr srcs)]
  let overall_critique ← CriticAgent.critique_research combined_research overallInvoke
  let recommendations ← _generate_recommendations plan research_items critiques
  let sts ← pySubscript plan "subtasks"
  let total_tasks ← pyLen sts
  let key_insights ← _extract_key_insights research_items
  let oc_qual ← pyGetD overall_critique "overall_quality" (.jnum 5)
  let oc_conf ← pyGetD overall_critique "confidence_level" (.jstr "medium")
  let rationale ← pyGetD plan "rationale" (.jstr "")
  let findings ← detailedFindings research_items
  let oc_crit ← pyGetD overall_critique "critique" (.jobj [])
  let strengths ← pyGetD oc_crit "strengths" (.jarr [])
  let weaknesses ← pyGetD oc_crit "weaknesses" (.jarr [])
  let improvements ← pyGetD overall_critique "improvements" (.jarr [])
  let next_steps ← _generate_next_steps critiques
  pure (.jobj [
    ("metadata", .jobj [("problem", .jstr problem), ("generated_at", .jstr timestamp),
      ("total_tasks", .jnum total_tasks), ("research_tasks_completed", .jnum research_items.length),
      ("critiques_generated", .jnum critiques.length)]),
    ("executive_summary", .jobj [("problem_statement", .jstr problem),
      ("key_insights", .jarr (key_insights.map JsonValue.jstr)),
      ("overall_quality_score", oc_qual), ("confidence_level", oc_conf),
      ("top_recommendation", match recommendations with
        | [] => .jstr "No clear recommendation"
        | r :: _ => .jstr r)]),
    ("methodology", .jobj [("planning_rationale", rationale),
      ("agents_used", .jarr [.jstr "TaskPlanner", .jstr "ResearchAgent", .jstr "CriticAgent"]),
      ("tools_used", .jarr [.jstr "Groq LLM", .jstr "DuckDuckGo Search"])]),
    ("detailed_findings", .jarr findings),
    ("critical_assessment", .jobj [("overall_score", oc_qual), ("strengths", strengths),
      ("weaknesses", weaknesses), ("improvement_suggestions", improvements)]),
    ("recommendations", .jarr (recommendations.map JsonValue.jstr)),
    ("next_steps", .jarr (next_steps.map JsonValue.jstr))])

/-- AutoAnalyst.analyze: plan, research loop, critique loop, final report
(_save_analysis only writes the produced records to files and is elided). -/
def analyze (problem : String) (planInvoke : Except String String) (serpKey : Bool)
    (primary : String → Except String (List SearchHit))
    (fb : JsonValue → Except String (List SearchHit))
    (rinvoke : JsonValue → Except String String) (cinvoke : JsonValue → Except String String)
    (overallInvoke : Except String String) (timestamp : String) : Except PyErr JsonValue := do
  let plan := TaskPlanner.create_plan problem planInvoke
  let _ ← TaskPlanner.display_plan_check plan
  let sts ← pySubscript plan "subtasks"
  let tasks ← pyIterList sts
  let all_research ← researchLoop serpKey primary fb rinvoke tasks
  let all_critiques ← critiqueLoop cinvoke all_research
  _generate_final_report problem plan all_research all_critiques overallInvoke timestamp

end AutoAnalyst

/-! Helper lemmas about the embedding. -/

@[simp]
theorem exceptBind_ok {α β : Type} (a : α) (f : α → Except PyErr β) :
    (Except.ok a >>= f) = f a := rfl

@[simp]
theorem exceptBind_error {α β : Type} (e : PyErr) (f : α → Except PyErr β) :
    ((Except.error e : Except PyErr α) >>= f) = Except.error e := rfl

@[simp]
theorem exceptPure {α : Type} (a : α) : (pure a : Except PyErr α) = Except.ok a := rfl

theorem getK_setK_self (fs : List (String × JsonValue)) (k : String) (v : JsonValue) :
    getK (setK fs k v) k = some v := by
  induction fs with
  | nil => simp [setK, getK]
  | cons p rest ih =>
    obtain ⟨k1, v1⟩ := p
    by_cases h : k1 = k
    · simp [setK, getK, h]
    · simp [setK, getK, h, ih]

theorem pySubscript_ok_jGet (t : JsonValue) (k : String) (v : JsonValue)
    (h : pySubscript t k = .ok v) : jGet t k = some v := by
  cases t <;> simp [pySubscript] at h
  case jobj fs =>
    cases hk : getK fs k with
    | none => rw [hk] at h; simp at h
    | some w => rw [hk] at h; simp at h; simp [jGet, hk, h]

theorem plannerFallback_loads :
    jsonLoadsE TaskPlanner.extractFallbackString = .ok TaskPlanner.extractFallbackPlan := by decide

theorem plannerFallback_valid :
    TaskPlanner._validate_plan TaskPlanner.extractFallbackPlan = .ok () := by decide

theorem tryPlan_of_fallback (response : String)
    (hx : TaskPlanner._extract_json response = TaskPlanner.extractFallbackString) :
    TaskPlanner.tryPlan response = .ok TaskPlanner.extractFallbackPlan := by
  unfold TaskPlanner.tryPlan
  rw [hx]
  simp [plannerFallback_loads, plannerFallback_valid]

theorem fallbackPlan_ne_default (problem : String) :
    TaskPlanner.extractFallbackPlan ≠ TaskPlanner._create_default_plan problem := by
  simp [TaskPlanner.extractFallbackPlan, TaskPlanner._create_default_plan]

/-- The running example of the crude-extraction claim. -/
def c3Text : String := "noise\x7b\"a\":1\x7dmore noise\x7b\"b\":2\x7d"

/-- The first-to-last brace span of c3Text. -/
def c3Span : String := "\x7b\"a\":1\x7dmore noise\x7b\"b\":2\x7d"

/-- C3 (confirmed): whenever the raw text contains an opening brace and its
last closing brace lies after the first opening brace, every one of the
three agents' _extract_json functions returns exactly the slice from the
first opening brace through the last closing brace, with no brace-balance
scanning and no retry; on the text noise-a-1-more-noise-b-2 the returned
span runs from the first opening brace to the final closing brace, its
deserialization fails, and the planner therefore takes its failure path
(the default plan). -/
theorem extract_json_first_to_last_brace (text : String)
    (h1 : 0 ≤ pyFind text lbrace) (h2 : pyFind text lbrace < pyRfind text rbrace) :
    TaskPlanner._extract_json text =
        pySliceStr text (pyFind text lbrace).toNat (pyRfind text rbrace + 1).toNat
    ∧ ResearchAgent._extract_json text =
        pySliceStr text (pyFind text lbrace).toNat (pyRfind text rbrace + 1).toNat
    ∧ CriticAgent._extract_json text =
        pySliceStr text (pyFind text lbrace).toNat (pyRfind text rbrace + 1).toNat
    ∧ TaskPlanner._extract_json c3Text = c3Span
    ∧ json_loads c3Span = none
    ∧ TaskPlanner.create_plan "p" (.ok c3Text) = TaskPlanner._create_default_plan "p" := by
  have hc : 0 ≤ pyFind text lbrace ∧ pyFind text lbrace < pyRfind text rbrace + 1 :=
    ⟨h1, lt_trans h2 (lt_add_one _)⟩
  refine ⟨?_, ?_, ?_, by decide, by decide, by decide⟩
  · simp [TaskPlanner._extract_json, hc]
  · simp [ResearchAgent._extract_json, hc]
  · simp [CriticAgent._extract_json, hc]

theorem extract_json_first_to_last_brace_witness :
    TaskPlanner._extract_json c3Text =
      pySliceStr c3Text (pyFind c3Text lbrace).toNat (pyRfind c3Text rbrace + 1).toNat :=
  (extract_json_first_to_last_brace c3Text (by decide) (by decide)).1

/-- C4 counterexample: on raw text with no brace pair the planner extractor
does not signal a failure that leads to the FallbackFactory record; it
returns a canned JSON string of its own whose deserialization succeeds, and
create_plan then returns that embedded record, which differs from the
planner's default plan. -/
theorem extract_json_no_span_counterexample :
    json_loads (TaskPlanner._extract_json "no json here") = some TaskPlanner.extractFallbackPlan
    ∧ TaskPlanner.create_plan "p" (.ok "no json here") = TaskPlanner.extractFallbackPlan
    ∧ TaskPlanner.extractFallbackPlan ≠ TaskPlanner._create_default_plan "p" := by decide

/-- C4 (amended): on raw text with no usable brace span, each extractor
returns its stage-specific canned JSON string; that string deserializes
successfully, so the stage returns the record embedded by the extractor
rather than signalling an extraction failure and substituting the stage's
default record. -/
theorem extract_json_no_span_embedded_record (text : String)
    (h : ¬(0 ≤ pyFind text lbrace ∧ pyFind text lbrace < pyRfind text rbrace + 1)) :
    TaskPlanner._extract_json text = TaskPlanner.extractFallbackString
    ∧ ResearchAgent._extract_json text = ResearchAgent.extractFallbackString
    ∧ CriticAgent._extract_json text = CriticAgent.extractFallbackString
    ∧ json_loads TaskPlanner.extractFallbackString = some TaskPlanner.extractFallbackPlan
    ∧ json_loads CriticAgent.extractFallbackString = some CriticAgent.extractFallbackCritique
    ∧ (∀ problem, TaskPlanner.create_plan problem (.ok text) = TaskPlanner.extractFallbackPlan) := by
  have hp : TaskPlanner._extract_json text = TaskPlanner.extractFallbackString := by
    simp only [TaskPlanner._extract_json]
    rw [if_neg h]
  refine ⟨hp, ?_, ?_, by decide, by decide, ?_⟩
  · simp only [ResearchAgent._extract_json]
    rw [if_neg h]
  · simp only [CriticAgent._extract_json]
    rw [if_neg h]
  · intro problem
    simp only [TaskPlanner.create_plan, BaseLLM.generate, tryPlan_of_fallback _ hp]

theorem extract_json_no_span_embedded_record_witness :
    TaskPlanner._extract_json "plain text answer" = TaskPlanner.extractFallbackString
    ∧ TaskPlanner.create_plan "q" (.ok "plain text answer") = TaskPlanner.extractFallbackPlan :=
  ⟨(extract_json_no_span_embedded_record "plain text answer" (by decide)).1,
   (extract_json_no_span_embedded_record "plain text answer" (by decide)).2.2.2.2.2 "q"⟩

/-- C5 counterexample: when the model invocation fails, create_plan does
not produce the FallbackFactory record carrying the original problem text;
the swallowed error string flows through extraction, yielding the canned
extractor record, and an error message that itself contains braces yields
a record parsed straight out of the error message. -/
theorem model_failure_counterexample :
    TaskPlanner.create_plan "Evaluate X" (.error "connection timeout") =
      TaskPlanner.extractFallbackPlan
    ∧ TaskPlanner.extractFallbackPlan ≠ TaskPlanner._create_default_plan "Evaluate X"
    ∧ BaseLLM.generate (.error "connection timeout") =
      "Error generating response: connection timeout"
    ∧ TaskPlanner.create_plan "Evaluate X"
        (.error "bad config \x7b\"problem\": \"x\", \"subtasks\": [], \"rationale\": \"r\"\x7d") =
      .jobj [("problem", .jstr "x"), ("subtasks", .jarr []), ("rationale", .jstr "r")] := by decide

/-- C5 (amended): a failed model invocation is swallowed by BaseLLM.generate
into the string Error generating response plus the message, which then flows
through extraction like any model output; when that string contains no brace
pair the stage returns the extractor's canned embedded record, which is not
the stage's default record built from the original problem text. -/
theorem model_failure_reaches_extraction (problem e : String)
    (h : pyFind ("Error generating response: " ++ e) lbrace = -1) :
    TaskPlanner.create_plan problem (.error e) = TaskPlanner.extractFallbackPlan
    ∧ TaskPlanner.extractFallbackPlan ≠ TaskPlanner._create_default_plan problem := by
  refine ⟨?_, fallbackPlan_ne_default problem⟩
  have hg : BaseLLM.generate (.error e) = "Error generating response: " ++ e := rfl
  have hp : TaskPlanner._extract_json (BaseLLM.generate (.error e)) =
      TaskPlanner.extractFallbackString := by
    simp only [TaskPlanner._extract_json, hg]
    rw [if_neg]
    rw [h]
    intro hcon
    exact absurd hcon.1 (by norm_num)
  simp only [TaskPlanner.create_plan, tryPlan_of_fallback _ hp]

theorem model_failure_reaches_extraction_witness :
    TaskPlanner.create_plan "Evaluate Y" (.error "timeout") = TaskPlanner.extractFallbackPlan :=
  (model_failure_reaches_extraction "Evaluate Y" "timeout" (by decide)).1

/-- A query of twenty words without any year token. -/
def twentyWordQuery : String :=
  "alpha beta gamma delta epsilon zeta eta theta iota kappa lambda mu nu xi omicron pi rho sigma tau upsilon"

/-- The first twelve words of twentyWordQuery. -/
def twelveWordResult : String :=
  "alpha beta gamma delta epsilon zeta eta theta iota kappa lambda mu"

/-- C7 counterexample: a 20-word query is not truncated before the year
append; the code appends the year first and then truncates, so the
appended 2024 token is cut away and the result of the claimed
truncate-then-append order (first 12 words followed by 2024) is not
produced; moreover a query already containing the four-digit year 2021 is
not returned unchanged, because only the literal substrings 2024 and 2023
suppress the append. -/
theorem query_preparation_counterexample :
    ResearchAgent.serpQueryString twentyWordQuery = twelveWordResult
    ∧ containsSub (ResearchAgent.serpQueryString twentyWordQuery) "2024" = false
    ∧ ResearchAgent.serpQueryString twentyWordQuery ≠ twelveWordResult ++ " 2024"
    ∧ ResearchAgent._optimize_query "best colleges 2021 ranking" =
      "best colleges 2021 ranking 2024" := by decide

/-- C7 (amended): the search-query preparation used before the primary
search first appends the recency token 2024 unless the lowercased stripped
query already contains the literal substring 2024 or 2023 (not any
four-digit year), and only then truncates to the first 12 words when the
word count of the year-appended query exceeds 15, so the appended year can
be truncated away; the two single-step examples of the claim hold, while a
20-word query ends up as its first 12 words with no year token. -/
theorem query_preparation_append_then_truncate :
    (∀ q, containsSub (pyStrip (pyLower q)) "2024" = false →
      containsSub (pyStrip (pyLower q)) "2023" = false →
      ResearchAgent._optimize_query q = q ++ " 2024")
    ∧ (∀ q, (containsSub (pyStrip (pyLower q)) "2024" = true
        ∨ containsSub (pyStrip (pyLower q)) "2023" = true) →
      ResearchAgent._optimize_query q = q)
    ∧ ResearchAgent._optimize_query "best colleges 2023 ranking" = "best colleges 2023 ranking"
    ∧ ResearchAgent._optimize_query "best colleges ranking" = "best colleges ranking 2024"
    ∧ ResearchAgent.serpQueryString twentyWordQuery = twelveWordResult := by
  refine ⟨?_, ?_, by decide, by decide, by decide⟩
  · intro q h1 h2
    simp [ResearchAgent._optimize_query, h1, h2]
  · intro q h
    rcases h with h | h <;> simp [ResearchAgent._optimize_query, h]

theorem query_preparation_append_then_truncate_witness :
    ResearchAgent._optimize_query "best colleges ranking" = "best colleges ranking 2024"
    ∧ ResearchAgent._optimize_query "best colleges 2023 ranking" = "best colleges 2023 ranking" :=
  ⟨query_preparation_append_then_truncate.1 "best colleges ranking" (by decide) (by decide),
   query_preparation_append_then_truncate.2.1 "best colleges 2023 ranking" (Or.inr (by decide))⟩

theorem tryAnalyze_ok_shape (sr : List SearchHit) (resp : String) (r : JsonValue)
    (h : ResearchAgent.tryAnalyze sr resp = .ok r) :
    ∃ fields, r = .jobj (setK fields "raw_results" (hitsToJson sr)) := by
  unfold ResearchAgent.tryAnalyze at h
  cases hl : jsonLoadsE (ResearchAgent._extract_json resp) with
  | error e => rw [hl] at h; simp at h
  | ok v =>
    rw [hl] at h
    cases v <;> simp at h
    exact ⟨_, h.symm⟩

/-- C10 (confirmed): every record returned by research_topic, on the
successful-analysis path, the analysis-failure path and the empty-search
path alike, carries a raw_results key whose value is exactly the list of
search hits that search_web returned for that call (the empty list when
the search produced none). -/
theorem research_topic_raw_results_invariant (topic : JsonValue) (serpKey : Bool)
    (primary : String → Except String (List SearchHit))
    (fb : JsonValue → Except String (List SearchHit)) (invoke : Except String String) :
    jGet (ResearchAgent.research_topic topic serpKey primary fb invoke) "raw_results" =
      some (hitsToJson (ResearchAgent.search_web topic serpKey primary fb)) := by
  unfold ResearchAgent.research_topic
  cases hsr : ResearchAgent.search_web topic serpKey primary fb with
  | nil =>
    simp [ResearchAgent._create_empty_research, jGet, getK, hitsToJson]
  | cons hd tl =>
    simp only [List.isEmpty_cons, Bool.false_eq_true, if_false]
    cases hta : ResearchAgent.tryAnalyze (hd :: tl) (BaseLLM.generate invoke) with
    | ok r =>
      obtain ⟨fields, rfl⟩ := tryAnalyze_ok_shape _ _ _ hta
      simp [jGet, getK_setK_self]
    | error e =>
      simp [ResearchAgent._create_basic_research, jGet, getK]

theorem validate_jobj_iff (fields : List (String × JsonValue)) :
    TaskPlanner._validate_plan (.jobj fields) = .ok () ↔
      ((getK fields "problem").isSome = true ∧ (getK fields "subtasks").isSome = true ∧
       (getK fields "rationale").isSome = true ∧
       isJArr ((getK fields "subtasks").getD .jnull) = true) := by
  simp only [TaskPlanner._validate_plan, pyContains, pySubscript, exceptBind_ok]
  by_cases h1 : (getK fields "problem").isSome
  · by_cases h2 : (getK fields "subtasks").isSome
    · by_cases h3 : (getK fields "rationale").isSome
      · obtain ⟨v, hv⟩ := Option.isSome_iff_exists.mp h2
        rw [hv]
        simp [h1, h2, h3, hv]
      · simp [h1, h2, h3]
    · simp [h1, h2]
  · simp [h1]

theorem validate_missing_problem (fields : List (String × JsonValue))
    (h : (getK fields "problem").isSome = false) :
    TaskPlanner._validate_plan (.jobj fields) =
      .error (.valueError "Missing required key in plan: problem") := by
  simp [TaskPlanner._validate_plan, pyContains, h]

theorem validate_missing_subtasks (fields : List (String × JsonValue))
    (h1 : (getK fields "problem").isSome = true)
    (h2 : (getK fields "subtasks").isSome = false) :
    TaskPlanner._validate_plan (.jobj fields) =
      .error (.valueError "Missing required key in plan: subtasks") := by
  simp [TaskPlanner._validate_plan, pyContains, h1, h2]

theorem research_success_unvalidated (topic : JsonValue) (serpKey : Bool)
    (primary : String → Except String (List SearchHit))
    (fb : JsonValue → Except String (List SearchHit)) (invoke : Except String String)
    (fields : List (String × JsonValue)) (hd : SearchHit) (tl : List SearchHit)
    (hs : ResearchAgent.search_web topic serpKey primary fb = hd :: tl)
    (hj : json_loads (ResearchAgent._extract_json (BaseLLM.generate invoke)) =
      some (.jobj fields)) :
    ResearchAgent.research_topic topic serpKey primary fb invoke =
      .jobj (setK fields "raw_results" (hitsToJson (hd :: tl))) := by
  unfold ResearchAgent.research_topic
  rw [hs]
  simp only [List.isEmpty_cons, Bool.false_eq_true, if_false]
  have hta : ResearchAgent.tryAnalyze (hd :: tl) (BaseLLM.generate invoke) =
      .ok (.jobj (setK fields "raw_results" (hitsToJson (hd :: tl)))) := by
    unfold ResearchAgent.tryAnalyze
    simp [jsonLoadsE, hj]
  rw [hta]

theorem validate_ok_keys (plan : JsonValue) (h : TaskPlanner._validate_plan plan = .ok ()) :
    jHasKey plan "problem" = true ∧ jHasKey plan "subtasks" = true
    ∧ jHasKey plan "rationale" = true := by
  cases plan with
  | jobj fields =>
    have := (validate_jobj_iff fields).mp h
    simp [jHasKey, jGet]
    exact ⟨this.1, this.2.1, this.2.2.1⟩
  | jnull => simp [TaskPlanner._validate_plan, pyContains] at h
  | jbool b => simp [TaskPlanner._validate_plan, pyContains] at h
  | jnum n => simp [TaskPlanner._validate_plan, pyContains] at h
  | jstr s =>
    simp only [TaskPlanner._validate_plan, pyContains, pySubscript, exceptBind_ok,
      exceptBind_error] at h
    by_cases c1 : containsSub s "problem" <;> simp [c1] at h
    by_cases c2 : containsSub s "subtasks" <;> simp [c2] at h
    by_cases c3 : containsSub s "rationale" <;> simp [c3] at h
  | jarr l =>
    simp only [TaskPlanner._validate_plan, pyContains, pySubscript, exceptBind_ok,
      exceptBind_error] at h
    by_cases c1 : JsonValue.jstr "problem" ∈ l <;> simp [c1] at h
    by_cases c2 : JsonValue.jstr "subtasks" ∈ l <;> simp [c2] at h
    by_cases c3 : JsonValue.jstr "rationale" ∈ l <;> simp [c3] at h

theorem tryPlan_ok_valid (response : String) (plan : JsonValue)
    (h : TaskPlanner.tryPlan response = .ok plan) :
    TaskPlanner._validate_plan plan = .ok () := by
  simp only [TaskPlanner.tryPlan] at h
  cases hl : jsonLoadsE (TaskPlanner._extract_json response) with
  | error e => rw [hl] at h; simp at h
  | ok v =>
    rw [hl] at h
    simp only [exceptBind_ok] at h
    cases hv : TaskPlanner._validate_plan v with
    | error e => rw [hv] at h; simp at h
    | ok u =>
      rw [hv] at h
      simp at h
      subst h
      cases u
      exact hv

theorem create_plan_keys (problem : String) (invoke : Except String String) (k : String)
    (hk : k ∈ ["problem", "subtasks", "rationale"]) :
    jHasKey (TaskPlanner.create_plan problem invoke) k = true := by
  simp only [List.mem_cons, List.not_mem_nil, or_false] at hk
  cases htp : TaskPlanner.tryPlan (BaseLLM.generate invoke) with
  | ok plan =>
    have hkeys := validate_ok_keys plan (tryPlan_ok_valid _ _ htp)
    simp only [TaskPlanner.create_plan, htp]
    rcases hk with rfl | rfl | rfl
    · exact hkeys.1
    · exact hkeys.2.1
    · exact hkeys.2.2
  | error e =>
    simp only [TaskPlanner.create_plan, htp]
    rcases hk with rfl | rfl | rfl <;>
      simp [TaskPlanner._create_default_plan, jHasKey, jGet, getK]

theorem prepare_ok_obj (research : JsonValue)
    (h : CriticAgent._prepare_findings_summary research = .ok ()) :
    ∃ fields, research = .jobj fields := by
  cases research with
  | jobj fields => exact ⟨fields, rfl⟩
  | jnull => simp [CriticAgent._prepare_findings_summary, pyGetD] at h
  | jbool b => simp [CriticAgent._prepare_findings_summary, pyGetD] at h
  | jnum n => simp [CriticAgent._prepare_findings_summary, pyGetD] at h
  | jstr s => simp [CriticAgent._prepare_findings_summary, pyGetD] at h
  | jarr l => simp [CriticAgent._prepare_findings_summary, pyGetD] at h

theorem critique_ok_of_prepare (research : JsonValue) (invoke : Except String String)
    (h : CriticAgent._prepare_findings_summary research = .ok ()) :
    ∃ c, CriticAgent.critique_research research invoke = .ok c := by
  obtain ⟨fields, rfl⟩ := prepare_ok_obj research h
  unfold CriticAgent.critique_research
  rw [h]
  simp only [exceptBind_ok, pyGetD]
  cases htc : CriticAgent.tryCritique (.jobj fields) (BaseLLM.generate invoke) with
  | ok c => exact ⟨c, by simp [htc]⟩
  | error e => exact ⟨CriticAgent._create_default_critique (.jobj fields), by simp [htc]⟩

/-- C2 counterexample: critique_research does not return normally for every
input; preparing the findings summary runs outside the try block, and a
research record whose key_findings entries lack the category key makes it
raise a KeyError that propagates to the caller, whatever the model does. -/
theorem stage_entry_counterexample :
    CriticAgent.critique_research (.jobj [("key_findings", .jarr [.jobj []])]) (.ok "response") =
      .error (.keyError "category")
    ∧ CriticAgent.critique_research (.jobj [("key_findings", .jarr [.jobj []])])
        (.error "model down") = .error (.keyError "category") := by decide

/-- C2 (amended): create_plan and research_topic return normally on every
input and collaborator outcome (they are total functions of the embedding),
and create_plan's record always carries the plan stage's three required
keys; critique_research returns normally whenever its findings-summary
preparation succeeds, but that preparation runs before the protected block
and can raise on malformed research input, and success-path records of the
research and critique stages are returned without schema validation. -/
theorem stage_entry_points_amended :
    (∀ problem invoke k, k ∈ ["problem", "subtasks", "rationale"] →
      jHasKey (TaskPlanner.create_plan problem invoke) k = true)
    ∧ (∀ research invoke, CriticAgent._prepare_findings_summary research = .ok () →
      ∃ c, CriticAgent.critique_research research invoke = .ok c) :=
  ⟨create_plan_keys, critique_ok_of_prepare⟩

theorem stage_entry_points_amended_witness :
    jHasKey (TaskPlanner.create_plan "p" (.error "x")) "problem" = true
    ∧ ∃ c, CriticAgent.critique_research (.jobj []) (.ok "y") = .ok c :=
  ⟨stage_entry_points_amended.1 "p" (.error "x") "problem" (by decide),
   stage_entry_points_amended.2 (.jobj []) (.ok "y") (by decide)⟩

/-- C6 counterexample: plan validation is not presence-only (a record whose
subtasks value is a number passes every presence check yet fails with the
list type check), and the presence check is not applied to every stage:
a research-stage success record missing the required summary key is
returned as-is. -/
theorem validation_presence_counterexample :
    TaskPlanner._validate_plan
        (.jobj [("problem", .jstr "p"), ("subtasks", .jnum 5), ("rationale", .jstr "r")]) =
      .error (.valueError "Subtasks must be a list")
    ∧ jHasKey
        (ResearchAgent.research_topic (.jstr "t") false (fun _ => .error "down")
          (fun _ => .ok [⟨"Title", "Snippet", "Url"⟩]) (.ok "\x7b\"a\": 1\x7d"))
        "summary" = false := by decide

/-- C6 (amended): only the plan stage validates: on a parsed record its
validation succeeds exactly when the three required top-level keys are
present and additionally the subtasks value is a list (a type check), a
missing key raising a ValueError naming the first missing key in the fixed
order; the research stage applies no validation at all and returns any
successfully parsed record, with only raw_results added. -/
theorem validation_only_plan_stage :
    (∀ fields, TaskPlanner._validate_plan (.jobj fields) = .ok () ↔
      ((getK fields "problem").isSome = true ∧ (getK fields "subtasks").isSome = true ∧
       (getK fields "rationale").isSome = true ∧
       isJArr ((getK fields "subtasks").getD .jnull) = true))
    ∧ (∀ fields, (getK fields "problem").isSome = false →
      TaskPlanner._validate_plan (.jobj fields) =
        .error (.valueError "Missing required key in plan: problem"))
    ∧ (∀ fields, (getK fields "problem").isSome = true →
      (getK fields "subtasks").isSome = false →
      TaskPlanner._validate_plan (.jobj fields) =
        .error (.valueError "Missing required key in plan: subtasks"))
    ∧ (∀ topic serpKey primary fb invoke fields hd tl,
      ResearchAgent.search_web topic serpKey primary fb = hd :: tl →
      json_loads (ResearchAgent._extract_json (BaseLLM.generate invoke)) =
        some (.jobj fields) →
      ResearchAgent.research_topic topic serpKey primary fb invoke =
        .jobj (setK fields "raw_results" (hitsToJson (hd :: tl)))) :=
  ⟨validate_jobj_iff, validate_missing_problem, validate_missing_subtasks,
   fun topic serpKey primary fb invoke fields hd tl hs hj =>
     research_success_unvalidated topic serpKey primary fb invoke fields hd tl hs hj⟩

theorem validation_only_plan_stage_witness :
    TaskPlanner._validate_plan
        (.jobj [("problem", .jstr "p"), ("subtasks", .jarr []), ("rationale", .jstr "r")]) =
      .ok ()
    ∧ TaskPlanner._validate_plan (.jobj [("rationale", .jstr "r")]) =
      .error (.valueError "Missing required key in plan: problem")
    ∧ ResearchAgent.research_topic (.jstr "t") false (fun _ => .error "down")
        (fun _ => .ok [⟨"Title", "Snippet", "Url"⟩]) (.ok "\x7b\"a\": 1\x7d") =
      .jobj (setK [("a", .jnum 1)] "raw_results" (hitsToJson [⟨"Title", "Snippet", "Url"⟩])) :=
  ⟨(validation_only_plan_stage.1 _).mpr (by decide),
   validation_only_plan_stage.2.1 _ (by decide),
   validation_only_plan_stage.2.2.2 (.jstr "t") false (fun _ => .error "down")
     (fun _ => .ok [⟨"Title", "Snippet", "Url"⟩]) (.ok "\x7b\"a\": 1\x7d")
     [("a", .jnum 1)] ⟨"Title", "Snippet", "Url"⟩ [] (by decide) (by decide)⟩

theorem researchLoop_ids (serpKey : Bool) (primary : String → Except String (List SearchHit))
    (fb : JsonValue → Except String (List SearchHit)) (rinvoke : JsonValue → Except String String) :
    ∀ subtasks items,
      AutoAnalyst.researchLoop serpKey primary fb rinvoke subtasks = .ok items →
      items.map ResearchItem.task_id =
        AutoAnalyst.subtaskIds (AutoAnalyst.eligibleSubtasks subtasks)
  | [], items => by
    intro hr
    simp only [AutoAnalyst.researchLoop] at hr
    simp at hr
    subst hr
    simp [AutoAnalyst.eligibleSubtasks, AutoAnalyst.subtaskIds]
  | task :: rest, items => by
    intro hr
    simp only [AutoAnalyst.researchLoop] at hr
    cases hag : pySubscript task "agent" with
    | error e => rw [hag] at hr; simp at hr
    | ok ag =>
      rw [hag] at hr
      simp only [exceptBind_ok] at hr
      have hga : jGet task "agent" = some ag := pySubscript_ok_jGet _ _ _ hag
      by_cases he : AutoAnalyst.isEligibleAgent ag = true
      · rw [if_pos he] at hr
        cases htk : pySubscript task "task" with
        | error e => rw [htk] at hr; simp at hr
        | ok tk =>
          rw [htk] at hr
          simp only [exceptBind_ok] at hr
          cases hdc : ResearchAgent.display_research_check
              (ResearchAgent.research_topic tk serpKey primary fb (rinvoke tk)) with
          | error e => rw [hdc] at hr; simp at hr
          | ok u =>
            rw [hdc] at hr
            simp only [exceptBind_ok] at hr
            cases hid : pySubscript task "id" with
            | error e => rw [hid] at hr; simp at hr
            | ok tid =>
              rw [hid] at hr
              simp only [exceptBind_ok] at hr
              cases hrest : AutoAnalyst.researchLoop serpKey primary fb rinvoke rest with
              | error e => rw [hrest] at hr; simp at hr
              | ok tail =>
                rw [hrest] at hr
                simp at hr
                subst hr
                have hgi : jGet task "id" = some tid := pySubscript_ok_jGet _ _ _ hid
                simp only [List.map_cons]
                rw [show AutoAnalyst.eligibleSubtasks (task :: rest) =
                    task :: AutoAnalyst.eligibleSubtasks rest by
                  simp [AutoAnalyst.eligibleSubtasks, List.filter, hga, he]]
                simp only [AutoAnalyst.subtaskIds, List.map_cons, hgi]
                rw [← AutoAnalyst.subtaskIds]
                exact congrArg _ (researchLoop_ids serpKey primary fb rinvoke rest tail hrest)
      · rw [if_neg he] at hr
        rw [show AutoAnalyst.eligibleSubtasks (task :: rest) =
            AutoAnalyst.eligibleSubtasks rest by
          simp [AutoAnalyst.eligibleSubtasks, List.filter, hga]
          simp at he
          simp [he]]
        exact researchLoop_ids serpKey primary fb rinvoke rest items hr

theorem critiqueLoop_ids (cinvoke : JsonValue → Except String String) :
    ∀ items citems, AutoAnalyst.critiqueLoop cinvoke items = .ok citems →
      citems.map CritiqueItem.task_id = items.map ResearchItem.task_id
  | [], citems => by
    intro h
    simp only [AutoAnalyst.critiqueLoop] at h
    simp at h
    subst h
    simp
  | item :: rest, citems => by
    intro h
    simp only [AutoAnalyst.critiqueLoop] at h
    cases hcr : CriticAgent.critique_research item.research (cinvoke item.research) with
    | error e => rw [hcr] at h; simp at h
    | ok c =>
      rw [hcr] at h
      simp only [exceptBind_ok] at h
      cases hdc : CriticAgent.display_critique_check c with
      | error e => rw [hdc] at h; simp at h
      | ok u =>
        rw [hdc] at h
        simp only [exceptBind_ok] at h
        cases hrest : AutoAnalyst.critiqueLoop cinvoke rest with
        | error e => rw [hrest] at h; simp at h
        | ok tail =>
          rw [hrest] at h
          simp at h
          subst h
          simp only [List.map_cons]
          exact congrArg _ (critiqueLoop_ids cinvoke rest tail hrest)

/-- C1 counterexample: the research loop does not produce one record per
subtask regardless of the agent label; a plan whose single subtask is
labelled writer yields zero research records (and hence zero critiques),
whatever the collaborators do. -/
theorem pipeline_per_subtask_counterexample :
    AutoAnalyst.researchLoop false (fun _ => .error "down") (fun _ => .error "down")
        (fun _ => .error "down")
        [.jobj [("id", .jnum 1), ("task", .jstr "Write the final summary"),
          ("agent", .jstr "writer"), ("tools", .jarr []),
          ("expected_output", .jstr "report")]] = .ok []
    ∧ ([.jobj [("id", .jnum 1), ("task", .jstr "Write the final summary"),
        ("agent", .jstr "writer"), ("tools", .jarr []),
        ("expected_output", .jstr "report")]] : List JsonValue).length = 1 := by decide

/-- C1 (amended): whenever the research and critique loops of analyze
return normally, they produce exactly one research record and one critique
record per subtask whose agent label is researcher, analyst or
data_scientist (not per subtask regardless of label), in the plan's
subtask order, each record carrying the originating subtask id; this holds
in particular when a subtask's research-stage model invocation is forced
to fail, since research_topic never raises and still yields its record. -/
theorem pipeline_records_per_eligible_subtask
    (subtasks : List JsonValue) (serpKey : Bool)
    (primary : String → Except String (List SearchHit))
    (fb : JsonValue → Except String (List SearchHit))
    (rinvoke cinvoke : JsonValue → Except String String)
    (items : List ResearchItem) (citems : List CritiqueItem)
    (hr : AutoAnalyst.researchLoop serpKey primary fb rinvoke subtasks = .ok items)
    (hc : AutoAnalyst.critiqueLoop cinvoke items = .ok citems) :
    items.map ResearchItem.task_id =
      AutoAnalyst.subtaskIds (AutoAnalyst.eligibleSubtasks subtasks)
    ∧ citems.map CritiqueItem.task_id =
      AutoAnalyst.subtaskIds (AutoAnalyst.eligibleSubtasks subtasks)
    ∧ items.length = (AutoAnalyst.eligibleSubtasks subtasks).length
    ∧ citems.length = items.length := by
  have h1 := researchLoop_ids serpKey primary fb rinvoke subtasks items hr
  have h2 := critiqueLoop_ids cinvoke items citems hc
  refine ⟨h1, h2.trans h1, ?_, ?_⟩
  · have := congrArg List.length h1
    simpa [AutoAnalyst.subtaskIds] using this
  · have := congrArg List.length h2
    simpa using this

/-- The three-subtask plan of the claim's scenario. -/
def c1Subtasks : List JsonValue :=
  [.jobj [("id", .jnum 1), ("task", .jstr "Research the market"),
    ("agent", .jstr "researcher"), ("tools", .jarr []), ("expected_output", .jstr "data")],
   .jobj [("id", .jnum 2), ("task", .jstr "Analyze the data"),
    ("agent", .jstr "analyst"), ("tools", .jarr []), ("expected_output", .jstr "analysis")],
   .jobj [("id", .jnum 3), ("task", .jstr "Assess the evidence"),
    ("agent", .jstr "data_scientist"), ("tools", .jarr []),
    ("expected_output", .jstr "assessment")]]

def c1Primary : String → Except String (List SearchHit) :=
  fun _ => .ok [⟨"Result title", "Result snippet", "Result url"⟩]

def c1Fb : JsonValue → Except String (List SearchHit) := fun _ => .error "ddg down"

/-- The research-stage model outcomes of the scenario: subtask 2's
invocation is forced to fail, the others return well-formed JSON. -/
def c1Rinvoke : JsonValue → Except String String := fun t =>
  if t == JsonValue.jstr "Analyze the data" then .error "model timeout for subtask 2"
  else .ok "\x7b\"topic\": \"t\", \"summary\": \"s\", \"key_findings\": [], \"statistics\": [], \"sources\": [], \"gaps\": [], \"next_steps\": []\x7d"

def c1Cinvoke : JsonValue → Except String String := fun _ => .error "critique model down"

def c1Items : List ResearchItem :=
  (AutoAnalyst.researchLoop true c1Primary c1Fb c1Rinvoke c1Subtasks).toOption.getD []

def c1CItems : List CritiqueItem :=
  (AutoAnalyst.critiqueLoop c1Cinvoke c1Items).toOption.getD []

theorem pipeline_records_per_eligible_subtask_witness :
    AutoAnalyst.researchLoop true c1Primary c1Fb c1Rinvoke c1Subtasks = .ok c1Items
    ∧ AutoAnalyst.critiqueLoop c1Cinvoke c1Items = .ok c1CItems
    ∧ c1Items.map ResearchItem.task_id =
      AutoAnalyst.subtaskIds (AutoAnalyst.eligibleSubtasks c1Subtasks)
    ∧ c1CItems.map CritiqueItem.task_id =
      AutoAnalyst.subtaskIds (AutoAnalyst.eligibleSubtasks c1Subtasks)
    ∧ AutoAnalyst.subtaskIds (AutoAnalyst.eligibleSubtasks c1Subtasks) =
      [.jnum 1, .jnum 2, .jnum 3] :=
  ⟨by decide, by decide,
   (pipeline_records_per_eligible_subtask c1Subtasks true c1Primary c1Fb c1Rinvoke c1Cinvoke
     c1Items c1CItems (by decide) (by decide)).1,
   (pipeline_records_per_eligible_subtask c1Subtasks true c1Primary c1Fb c1Rinvoke c1Cinvoke
     c1Items c1CItems (by decide) (by decide)).2.1,
   by decide⟩

/-- The rendering of one improvements entry in next_steps, as the amended
claim describes it: a high-priority entry becomes a High priority line
with its suggestion text. -/
def stepsSpecPerImp (imp : JsonValue) : Option String :=
  if jGet imp "priority" = some (.jstr "high") then
    some ("High priority: " ++ pyStr ((jGet imp "suggestion").getD (.jstr "")))
  else none

/-- The next_steps list as the amended claim describes it: per critique
only the first two entries of its improvements list are examined, the
high-priority ones among them are rendered, the union is replaced by the
fixed 4-item default when empty, and the result is capped at 5. -/
def nextStepsSpec (critiques : List CritiqueItem) : List String :=
  let l := critiques.flatMap fun c =>
    ((jArrList (jGetD c.critique "improvements" (.jarr []))).take 2).filterMap stepsSpecPerImp
  (if l = [] then AutoAnalyst.defaultNextSteps else l).take 5

theorem getD_null_eq_str {o : Option JsonValue} {s : String}
    (h : o.getD .jnull = .jstr s) : o = some (.jstr s) := by
  cases o with
  | none => simp [Option.getD] at h
  | some v => simp [Option.getD] at h; simp [h]

theorem stepsFromImps_ok : ∀ imps l, AutoAnalyst.stepsFromImps imps = .ok l →
    l = imps.filterMap stepsSpecPerImp
  | [], l => by
    intro h
    simp [AutoAnalyst.stepsFromImps] at h
    subst h
    simp
  | imp :: rest, l => by
    intro h
    simp only [AutoAnalyst.stepsFromImps] at h
    cases imp with
    | jobj fs =>
      simp only [pyGetD, exceptBind_ok] at h
      by_cases hp : ((getK fs "priority").getD .jnull == JsonValue.jstr "high") = true
      · rw [if_pos hp] at h
        cases hrest : AutoAnalyst.stepsFromImps rest with
        | error e => rw [hrest] at h; simp at h
        | ok tail =>
          rw [hrest] at h
          simp at h
          subst h
          have hps : getK fs "priority" = some (.jstr "high") :=
            getD_null_eq_str (beq_iff_eq.mp hp)
          simp only [List.filterMap_cons, stepsSpecPerImp, jGet, hps, if_pos rfl, jGetD]
          simp [stepsFromImps_ok rest tail hrest]
      · rw [if_neg hp] at h
        have hps : ¬(jGet (JsonValue.jobj fs) "priority" = some (.jstr "high")) := by
          intro hcon
          apply hp
          simp only [jGet] at hcon
          simp [hcon]
        simp only [List.filterMap_cons, stepsSpecPerImp, if_neg hps]
        exact stepsFromImps_ok rest l h
    | jnull => simp [pyGetD] at h
    | jbool b => simp [pyGetD] at h
    | jnum n => simp [pyGetD] at h
    | jstr s => simp [pyGetD] at h
    | jarr el => simp [pyGetD] at h

theorem stepsFromCritiques_ok : ∀ cs l, AutoAnalyst.stepsFromCritiques cs = .ok l →
    l = cs.flatMap (fun c =>
      ((jArrList (jGetD c.critique "improvements" (.jarr []))).take 2).filterMap stepsSpecPerImp)
  | [], l => by
    intro h
    simp [AutoAnalyst.stepsFromCritiques] at h
    subst h
    simp
  | c :: rest, l => by
    intro h
    simp only [AutoAnalyst.stepsFromCritiques] at h
    cases hc : c.critique with
    | jobj fs =>
      rw [hc] at h
      simp only [pyGetD, exceptBind_ok] at h
      cases hv : (getK fs "improvements").getD (.jarr []) with
      | jarr il =>
        rw [hv] at h
        simp only [pySliceVal, exceptBind_ok, pyIterList] at h
        cases hsteps : AutoAnalyst.stepsFromImps (il.take 2) with
        | error e => rw [hsteps] at h; simp at h
        | ok here =>
          rw [hsteps] at h
          simp only [exceptBind_ok] at h
          cases hrest : AutoAnalyst.stepsFromCritiques rest with
          | error e => rw [hrest] at h; simp at h
          | ok tail =>
            rw [hrest] at h
            simp at h
            subst h
            simp only [List.flatMap_cons, jGetD, jGet, hc, hv, jArrList]
            rw [stepsFromImps_ok _ _ hsteps, stepsFromCritiques_ok rest tail hrest]
            simp [jGetD, jGet, jArrList]
      | jstr s =>
        rw [hv] at h
        simp only [pySliceVal, exceptBind_ok, pyIterList] at h
        cases hd : s.data with
        | nil =>
          have hempty : (strTake s 2).data = [] := by simp [strTake, hd]
          rw [hempty] at h
          simp only [List.map_nil] at h
          cases hrest : AutoAnalyst.stepsFromCritiques rest with
          | error e =>
            rw [hrest] at h
            simp [AutoAnalyst.stepsFromImps] at h
          | ok tail =>
            rw [hrest] at h
            simp [AutoAnalyst.stepsFromImps] at h
            subst h
            simp only [List.flatMap_cons, jGetD, jGet, hc, hv, jArrList]
            simp [stepsFromCritiques_ok rest tail hrest, jGetD, jGet, jArrList]
        | cons c2 cs2 =>
          have htk : (strTake s 2).data = c2 :: cs2.take 1 := by simp [strTake, hd]
          rw [htk] at h
          simp [AutoAnalyst.stepsFromImps, pyGetD] at h
      | jnull => rw [hv] at h; simp [pySliceVal] at h
      | jbool b => rw [hv] at h; simp [pySliceVal] at h
      | jnum n => rw [hv] at h; simp [pySliceVal] at h
      | jobj gs => rw [hv] at h; simp [pySliceVal] at h
    | jnull => rw [hc] at h; simp [pyGetD] at h
    | jbool b => rw [hc] at h; simp [pyGetD] at h
    | jnum n => rw [hc] at h; simp [pyGetD] at h
    | jstr s => rw [hc] at h; simp [pyGetD] at h
    | jarr el => rw [hc] at h; simp [pyGetD] at h

theorem take_five_ne_nil (x : List String) (h : x ≠ []) : x.take 5 ≠ [] := by
  cases x with
  | nil => exact absurd rfl h
  | cons a rest => simp

/-- C9 counterexample: next_steps does not contain all high-priority
improvements entries; a critique whose improvements list holds a
low-priority entry followed by two high-priority entries contributes only
the first high-priority entry, because the code slices the improvements
list to its first two entries before filtering on priority. -/
theorem next_steps_counterexample :
    AutoAnalyst._generate_next_steps
        [⟨.jnum 1, .jobj [("improvements", .jarr [
          .jobj [("area", .jstr "a1"), ("suggestion", .jstr "low suggestion"),
            ("priority", .jstr "low")],
          .jobj [("area", .jstr "a2"), ("suggestion", .jstr "first high suggestion"),
            ("priority", .jstr "high")],
          .jobj [("area", .jstr "a3"), ("suggestion", .jstr "second high suggestion"),
            ("priority", .jstr "high")]])]⟩] =
      .ok ["High priority: first high suggestion"]
    ∧ "High priority: second high suggestion" ∉ ["High priority: first high suggestion"] := by
  decide

/-- C9 (amended): whenever _generate_next_steps returns normally, its
result examines, per critique, only the first two entries of the
improvements list and renders the high-priority ones among those as High
priority lines (so a high-priority entry in third position is dropped and
at most two high-priority entries per critique can appear), substitutes
the fixed 4-item default list when nothing was collected, and caps the
result at 5 entries. -/
theorem next_steps_cap_then_filter :
    (∀ critiques l, AutoAnalyst._generate_next_steps critiques = .ok l →
      l = nextStepsSpec critiques ∧ l.length ≤ 5)
    ∧ AutoAnalyst._generate_next_steps [] = .ok AutoAnalyst.defaultNextSteps := by
  constructor
  · intro critiques l h
    simp only [AutoAnalyst._generate_next_steps] at h
    cases hsc : AutoAnalyst.stepsFromCritiques critiques with
    | error e => rw [hsc] at h; simp at h
    | ok ns =>
      rw [hsc] at h
      simp at h
      subst h
      have hn := stepsFromCritiques_ok _ _ hsc
      subst hn
      constructor
      · simp [nextStepsSpec, List.isEmpty_iff]
      · exact List.length_take_le _ _
  · decide

theorem next_steps_cap_then_filter_witness :
    AutoAnalyst._generate_next_steps
        [⟨.jnum 7, .jobj [("improvements", .jarr [
          .jobj [("suggestion", .jstr "only high"), ("priority", .jstr "high")]])]⟩] =
      .ok ["High priority: only high"]
    ∧ ["High priority: only high"] =
      nextStepsSpec [⟨.jnum 7, .jobj [("improvements", .jarr [
        .jobj [("suggestion", .jstr "only high"), ("priority", .jstr "high")]])]⟩] :=
  ⟨by decide,
   ((next_steps_cap_then_filter.1 _ _ (by decide)).1)⟩

/-- The Consider lines of the recommendation list, as the claim describes
them: one line per subtask whose task text contains recommend or suggest,
case-insensitively. -/
def considerLines (tasks : List JsonValue) : List String :=
  tasks.filterMap fun t =>
    match jGet t "task" with
    | some (.jstr s) =>
      if containsSub (pyLower s) "recommend" || containsSub (pyLower s) "suggest" then
        some ("Consider: " ++ s)
      else none
    | _ => none

/-- The per-critique recommendation lines of the recommendation list, as
the claim describes them: each critique that carries a recommendation
contributes its text labelled by its task id. -/
def critiqueRecLines (critiques : List CritiqueItem) : List String :=
  critiques.filterMap fun c =>
    if jHasKey c.critique "recommendation" then
      some ("Task " ++ pyStr c.task_id ++ ": " ++
        pyStr ((jGet c.critique "recommendation").getD .jnull))
    else none

/-- The recommendation list as the claim describes it: Consider lines from
the subtasks, then the labelled critique recommendations, the fixed 5-item
default when that union is empty, capped at 5. -/
def recommendationsSpec (plan : JsonValue) (critiques : List CritiqueItem) : List String :=
  let l := considerLines (jArrList (jGetD plan "subtasks" (.jarr []))) ++
    critiqueRecLines critiques
  (if l = [] then AutoAnalyst.defaultRecommendations else l).take 5

/-- Composed two-level lookup in a JSON object. -/
def jGet2 (j : JsonValue) (k1 k2 : String) : Option JsonValue :=
  (jGet j k1).bind fun v => jGet v k2

theorem recsFromSubtasks_ok : ∀ tasks a, AutoAnalyst.recsFromSubtasks tasks = .ok a →
    a = considerLines tasks
  | [], a => by
    intro h
    simp [AutoAnalyst.recsFromSubtasks] at h
    subst h
    simp [considerLines]
  | task :: rest, a => by
    intro h
    simp only [AutoAnalyst.recsFromSubtasks] at h
    cases htk : pySubscript task "task" with
    | error e => rw [htk] at h; simp at h
    | ok tk =>
      rw [htk] at h
      simp only [exceptBind_ok] at h
      have hgt : jGet task "task" = some tk := pySubscript_ok_jGet _ _ _ htk
      cases tk with
      | jstr s =>
        simp only [pyLowerE, exceptBind_ok] at h
        cases hrest : AutoAnalyst.recsFromSubtasks rest with
        | error e => rw [hrest] at h; simp at h
        | ok tail =>
          rw [hrest] at h
          simp only [exceptBind_ok] at h
          by_cases hcond :
              (containsSub (pyLower s) "recommend" || containsSub (pyLower s) "suggest") = true
          · rw [if_pos hcond] at h
            simp at h
            subst h
            have hcl : considerLines (task :: rest) =
                ("Consider: " ++ s) :: considerLines rest := by
              simp only [considerLines, List.filterMap_cons, hgt]
              rw [if_pos hcond]
            rw [hcl, recsFromSubtasks_ok rest tail hrest]
            simp [pyStr]
          · rw [if_neg hcond] at h
            simp at h
            subst h
            have hcl : considerLines (task :: rest) = considerLines rest := by
              simp only [considerLines, List.filterMap_cons, hgt]
              rw [if_neg hcond]
            rw [hcl]
            exact recsFromSubtasks_ok rest tail hrest
      | jnull => simp [pyLowerE] at h
      | jbool b => simp [pyLowerE] at h
      | jnum n => simp [pyLowerE] at h
      | jarr el => simp [pyLowerE] at h
      | jobj gs => simp [pyLowerE] at h

theorem recsFromCritiques_ok : ∀ cs b, AutoAnalyst.recsFromCritiques cs = .ok b →
    b = critiqueRecLines cs
  | [], b => by
    intro h
    simp [AutoAnalyst.recsFromCritiques] at h
    subst h
    simp [critiqueRecLines]
  | c :: rest, b => by
    intro h
    simp only [AutoAnalyst.recsFromCritiques] at h
    cases hc : c.critique with
    | jobj fs =>
      rw [hc] at h
      simp only [pyContains, exceptBind_ok] at h
      by_cases hhas : (getK fs "recommendation").isSome = true
      · rw [if_pos hhas] at h
        obtain ⟨r, hr⟩ := Option.isSome_iff_exists.mp hhas
        simp only [pySubscript, hr, exceptBind_ok] at h
        cases hrest : AutoAnalyst.recsFromCritiques rest with
        | error e => rw [hrest] at h; simp at h
        | ok tail =>
          rw [hrest] at h
          simp at h
          subst h
          have hcl : critiqueRecLines (c :: rest) =
              ("Task " ++ pyStr c.task_id ++ ": " ++ pyStr r) :: critiqueRecLines rest := by
            simp [critiqueRecLines, jHasKey, jGet, hc, hr]
          rw [hcl, recsFromCritiques_ok rest tail hrest]
      · rw [if_neg hhas] at h
        have hcl : critiqueRecLines (c :: rest) = critiqueRecLines rest := by
          simp only [Bool.not_eq_true] at hhas
          simp [critiqueRecLines, jHasKey, jGet, hc, hhas]
        rw [hcl]
        exact recsFromCritiques_ok rest b h
    | jnull => rw [hc] at h; simp [pyContains] at h
    | jbool bb => rw [hc] at h; simp [pyContains] at h
    | jnum n => rw [hc] at h; simp [pyContains] at h
    | jstr s =>
      rw [hc] at h
      simp only [pyContains, exceptBind_ok] at h
      by_cases hhas : containsSub s "recommendation" = true
      · rw [if_pos hhas] at h
        simp [pySubscript] at h
      · rw [if_neg hhas] at h
        have hcl : critiqueRecLines (c :: rest) = critiqueRecLines rest := by
          simp [critiqueRecLines, jHasKey, jGet, hc]
        rw [hcl]
        exact recsFromCritiques_ok rest b h
    | jarr el =>
      rw [hc] at h
      simp only [pyContains, exceptBind_ok] at h
      by_cases hhas : el.contains (JsonValue.jstr "recommendation") = true
      · rw [if_pos hhas] at h
        simp [pySubscript] at h
      · rw [if_neg hhas] at h
        have hcl : critiqueRecLines (c :: rest) = critiqueRecLines rest := by
          simp [critiqueRecLines, jHasKey, jGet, hc]
        rw [hcl]
        exact recsFromCritiques_ok rest b h

theorem iter_recs_considerLines (sts : JsonValue) (tasks : List JsonValue) (a : List String)
    (hiter : pyIterList sts = .ok tasks)
    (ha : AutoAnalyst.recsFromSubtasks tasks = .ok a) :
    a = considerLines (jArrList sts) := by
  cases sts with
  | jarr l =>
    simp only [pyIterList] at hiter
    simp at hiter
    subst hiter
    simpa [jArrList] using recsFromSubtasks_ok _ _ ha
  | jstr s =>
    simp only [pyIterList] at hiter
    simp at hiter
    subst hiter
    cases hd : s.data with
    | nil =>
      rw [hd] at ha
      simp [AutoAnalyst.recsFromSubtasks] at ha
      subst ha
      simp [jArrList, considerLines]
    | cons c2 cs2 =>
      rw [hd] at ha
      simp [AutoAnalyst.recsFromSubtasks, pySubscript] at ha
  | jobj fs =>
    simp only [pyIterList] at hiter
    simp at hiter
    subst hiter
    cases fs with
    | nil =>
      simp [AutoAnalyst.recsFromSubtasks] at ha
      subst ha
      simp [jArrList, considerLines]
    | cons p rest =>
      simp [AutoAnalyst.recsFromSubtasks, pySubscript] at ha
  | jnull => simp [pyIterList] at hiter
  | jbool b => simp [pyIterList] at hiter
  | jnum n => simp [pyIterList] at hiter

theorem gen_recs_ok (plan : JsonValue) (ritems : List ResearchItem)
    (critiques : List CritiqueItem) (l : List String)
    (h : AutoAnalyst._generate_recommendations plan ritems critiques = .ok l) :
    l = recommendationsSpec plan critiques ∧ l.length ≤ 5 ∧ l ≠ [] := by
  simp only [AutoAnalyst._generate_recommendations] at h
  cases hsts : pySubscript plan "subtasks" with
  | error e => rw [hsts] at h; simp at h
  | ok sts =>
    rw [hsts] at h
    simp only [exceptBind_ok] at h
    cases hiter : pyIterList sts with
    | error e => rw [hiter] at h; simp at h
    | ok tasks =>
      rw [hiter] at h
      simp only [exceptBind_ok] at h
      cases ha : AutoAnalyst.recsFromSubtasks tasks with
      | error e => rw [ha] at h; simp at h
      | ok a =>
        rw [ha] at h
        simp only [exceptBind_ok] at h
        cases hb : AutoAnalyst.recsFromCritiques critiques with
        | error e => rw [hb] at h; simp at h
        | ok b =>
          rw [hb] at h
          simp at h
          subst h
          have hsp : jGetD plan "subtasks" (.jarr []) = sts := by
            simp [jGetD, pySubscript_ok_jGet _ _ _ hsts]
          have h1 : a = considerLines (jArrList sts) := iter_recs_considerLines sts tasks a hiter ha
          have h2 : b = critiqueRecLines critiques := recsFromCritiques_ok critiques b hb
          subst h1
          subst h2
          refine ⟨?_, List.length_take_le _ _, ?_⟩
          · simp only [recommendationsSpec, hsp]
            simp [List.append_eq_nil]
          · by_cases he :
                considerLines (jArrList sts) = [] ∧ critiqueRecLines critiques = []
            · rw [if_pos he]
              decide
            · rw [if_neg he]
              apply take_five_ne_nil
              simpa [List.append_eq_nil] using he

theorem bind_ok_ex {α β : Type} {x : Except PyErr α} {f : α → Except PyErr β} {b : β}
    (h : (x >>= f) = .ok b) : ∃ a, x = .ok a ∧ f a = .ok b := by
  cases x with
  | error e => simp at h
  | ok a => exact ⟨a, rfl, by simpa using h⟩

theorem final_report_recommendations (problem : String) (plan : JsonValue)
    (ritems : List ResearchItem) (critiques : List CritiqueItem)
    (oinv : Except String String) (ts : String) (report : JsonValue)
    (h : AutoAnalyst._generate_final_report problem plan ritems critiques oinv ts = .ok report) :
    ∃ l, AutoAnalyst._generate_recommendations plan ritems critiques = .ok l ∧
      jGet report "recommendations" = some (.jarr (l.map JsonValue.jstr)) ∧
      jGet2 report "executive_summary" "top_recommendation" =
        some (.jstr (l.headD "No clear recommendation")) := by
  simp only [AutoAnalyst._generate_final_report] at h
  obtain ⟨kv, hkv, h⟩ := bind_ok_ex h
  obtain ⟨kf, srcs⟩ := kv
  obtain ⟨oc, hoc, h⟩ := bind_ok_ex h
  obtain ⟨recs, hrecs, h⟩ := bind_ok_ex h
  obtain ⟨sts, hsts, h⟩ := bind_ok_ex h
  obtain ⟨tt, htt, h⟩ := bind_ok_ex h
  obtain ⟨ki, hki, h⟩ := bind_ok_ex h
  obtain ⟨oq, hoq, h⟩ := bind_ok_ex h
  obtain ⟨ocf, hocf, h⟩ := bind_ok_ex h
  obtain ⟨rat, hrat, h⟩ := bind_ok_ex h
  obtain ⟨fnd, hfnd, h⟩ := bind_ok_ex h
  obtain ⟨occ, hocc, h⟩ := bind_ok_ex h
  obtain ⟨st, hst, h⟩ := bind_ok_ex h
  obtain ⟨wk, hwk, h⟩ := bind_ok_ex h
  obtain ⟨imp, himp, h⟩ := bind_ok_ex h
  obtain ⟨ns, hns, h⟩ := bind_ok_ex h
  simp at h
  subst h
  refine ⟨recs, hrecs, ?_, ?_⟩
  · simp [jGet, getK]
  · cases recs with
    | nil => simp [jGet2, jGet, getK]
    | cons r rs => simp [jGet2, jGet, getK]

theorem empty_sources_default (plan : JsonValue) (ritems : List ResearchItem)
    (hsub : jGet plan "subtasks" = some (.jarr [])) :
    AutoAnalyst._generate_recommendations plan ritems [] =
      .ok AutoAnalyst.defaultRecommendations := by
  cases plan <;> simp [jGet] at hsub
  case jobj fs =>
    simp [AutoAnalyst._generate_recommendations, pySubscript, hsub, pyIterList,
      AutoAnalyst.recsFromSubtasks, AutoAnalyst.recsFromCritiques]
    decide

/-- C8 (confirmed): the recommendation list of the report is built from the
subtasks whose task text contains recommend or suggest (as Consider lines),
followed by each critique's recommendation text labelled by its task id,
with a fixed 5-item default substituted when that union is empty and the
result capped at 5 entries, so its length never exceeds 5 and with empty
sources it equals the default list verbatim; the report carries exactly
that list under recommendations, and the executive summary's
top_recommendation is its first entry. -/
theorem report_recommendations_assembly :
    (∀ plan ritems critiques l,
      AutoAnalyst._generate_recommendations plan ritems critiques = .ok l →
      l = recommendationsSpec plan critiques ∧ l.length ≤ 5 ∧ l ≠ [])
    ∧ (∀ plan ritems, jGet plan "subtasks" = some (.jarr []) →
      AutoAnalyst._generate_recommendations plan ritems [] =
        .ok AutoAnalyst.defaultRecommendations)
    ∧ (∀ problem plan ritems critiques oinv ts report,
      AutoAnalyst._generate_final_report problem plan ritems critiques oinv ts = .ok report →
      ∃ l, AutoAnalyst._generate_recommendations plan ritems critiques = .ok l ∧
        jGet report "recommendations" = some (.jarr (l.map JsonValue.jstr)) ∧
        jGet2 report "executive_summary" "top_recommendation" =
          some (.jstr (l.headD "No clear recommendation"))) :=
  ⟨gen_recs_ok, empty_sources_default, final_report_recommendations⟩

/-- The concrete plan, critiques and report of the C8 scenario. -/
def c8Plan : JsonValue :=
  .jobj [("problem", .jstr "P"),
    ("subtasks", .jarr [.jobj [("id", .jnum 1),
      ("task", .jstr "Recommend a go-to-market strategy"), ("agent", .jstr "researcher")]]),
    ("rationale", .jstr "r")]

def c8Critiques : List CritiqueItem :=
  [⟨.jnum 2, .jobj [("recommendation", .jstr "Do X")]⟩]

def c8Recs : List String :=
  (AutoAnalyst._generate_recommendations c8Plan [] c8Critiques).toOption.getD []

def c8Report : JsonValue :=
  (AutoAnalyst._generate_final_report "P" c8Plan [] c8Critiques (.error "down")
    "2024-01-01 00:00:00").toOption.getD .jnull

theorem report_recommendations_assembly_witness :
    AutoAnalyst._generate_recommendations c8Plan [] c8Critiques = .ok c8Recs
    ∧ c8Recs = recommendationsSpec c8Plan c8Critiques
    ∧ c8Recs.length ≤ 5
    ∧ AutoAnalyst._generate_recommendations (.jobj [("subtasks", .jarr [])]) [] [] =
      .ok AutoAnalyst.defaultRecommendations
    ∧ ∃ l, AutoAnalyst._generate_recommendations c8Plan [] c8Critiques = .ok l ∧
        jGet c8Report "recommendations" = some (.jarr (l.map JsonValue.jstr)) ∧
        jGet2 c8Report "executive_summary" "top_recommendation" =
          some (.jstr (l.headD "No clear recommendation")) :=
  ⟨by decide,
   (report_recommendations_assembly.1 c8Plan [] c8Critiques c8Recs (by decide)).1,
   (report_recommendations_assembly.1 c8Plan [] c8Critiques c8Recs (by decide)).2.1,
   report_recommendations_assembly.2.1 (.jobj [("subtasks", .jarr [])]) [] (by decide),
   report_recommendations_assembly.2.2 "P" c8Plan [] c8Critiques (.error "down")
     "2024-01-01 00:00:00" c8Report (by decide)⟩
